import Mathlib

/-!
Shallow embedding of the slot-filling dialogue manager of `src/server.py`
(the `VoiceBotManager` class and the Flask route handlers built on it).

Python strings are modelled as Lean `String`s, working over their character
lists; all inputs of interest are ASCII, and the Python string primitives
(`lower`, `strip`, `title`, `replace`, substring `in`, `isdigit`,
`startswith`) are embedded as executable functions over `List Char` below.
The visitor-record dictionary becomes a structure with `Option String`
fields: `none` models an absent key, and reading an absent key models the
`KeyError` that the HTTP routes catch (`Except Unit` plays the role of a
Python exception).  The specific `re.sub` calls of the source are embedded
as direct character-scanning functions, each one faithful to the particular
pattern it replaces (leftmost, non-overlapping, greedy — as the `re` engine
behaves on these patterns); fuel arguments bound the recursion by the input
length and never run out on the lengths actually consumed.
-/

/-! ## Python string primitives -/

/-- Whitespace as recognised by Python `str.strip` / `\s` on ASCII input
(space, tab, newline, carriage return, vertical tab, form feed). -/
def wsB (c : Char) : Bool :=
  c = ' ' || c = '\t' || c = '\n' || c = '\r' || c.toNat = 11 || c.toNat = 12

/-- Python `str.lower` on ASCII. -/
def pyLower (s : String) : String := ⟨s.data.map Char.toLower⟩

/-- Python `str.strip` (ASCII whitespace on both ends). -/
def pyStrip (s : String) : String :=
  ⟨((s.data.dropWhile wsB).reverse.dropWhile wsB).reverse⟩

/-- One step of Python `str.title`: upper-case a letter that follows a
non-letter, lower-case a letter that follows a letter. -/
def titleGo : Bool → List Char → List Char
  | _, [] => []
  | prev, c :: t =>
    if c.isAlpha then (if prev then c.toLower else c.toUpper) :: titleGo true t
    else c :: titleGo false t

/-- Python `str.title` on ASCII. -/
def pyTitle (s : String) : String := ⟨titleGo false s.data⟩

/-- Substring search over character lists (Python `needle in hay`). -/
def containsSub (pat : List Char) : List Char → Bool
  | [] => pat.isEmpty
  | c :: t => pat.isPrefixOf (c :: t) || containsSub pat t

/-- Python `needle in hay` on strings. -/
def strContains (hay needle : String) : Bool := containsSub needle.data hay.data

/-- Python `hay.startswith needle`. -/
def pyStartsWith (s pre : String) : Bool := pre.data.isPrefixOf s.data

/-- Python `str.isdigit` on ASCII (false on the empty string). -/
def pyIsdigitL (l : List Char) : Bool := !l.isEmpty && l.all Char.isDigit

/-- Replace-all of a non-empty literal pattern, leftmost and non-overlapping
(Python `str.replace`).  The fuel is bounded by the input length. -/
def replaceGo (pat rep : List Char) : Nat → List Char → List Char
  | 0, l => l
  | _ + 1, [] => []
  | fuel + 1, c :: t =>
    if pat.isPrefixOf (c :: t) && !pat.isEmpty then
      rep ++ replaceGo pat rep fuel ((c :: t).drop pat.length)
    else c :: replaceGo pat rep fuel t

/-- Python `s.replace pat rep` (our patterns are all non-empty). -/
def pyReplace (s pat rep : String) : String :=
  ⟨replaceGo pat.data rep.data (s.data.length + 1) s.data⟩

/-- Case-insensitive test that `pat` (given in lower case) is a prefix of `l`. -/
def ciPrefix : List Char → List Char → Bool
  | [], _ => true
  | _ :: _, [] => false
  | p :: ps, c :: cs => p = c.toLower && ciPrefix ps cs

/-- Delete every leftmost occurrence of any pattern of `pats` (first matching
alternative wins at each position), case-insensitively: this is
`re.sub(r'(p1|p2|...)', '', s, flags=re.IGNORECASE)` for literal alternatives. -/
def removePatsGo (pats : List (List Char)) : Nat → List Char → List Char
  | 0, l => l
  | _ + 1, [] => []
  | fuel + 1, c :: t =>
    match pats.find? (fun p => ciPrefix p (c :: t)) with
    | some p => removePatsGo pats fuel ((c :: t).drop p.length)
    | none => c :: removePatsGo pats fuel t

/-- String wrapper for `removePatsGo` (patterns given in lower case). -/
def removePatsCI (pats : List String) (s : String) : String :=
  ⟨removePatsGo (pats.map String.data) (s.data.length + 1) s.data⟩

/-! ## Intent classifiers (`server.py` lines 44-55, 429-448) -/

/-- The affirmative phrase list `self.positive_responses` (lines 44-49). -/
def positive_responses : List String :=
  ["yes", "yeah", "yep", "yup", "correct", "right", "true", "confirm",
   "ok", "okay", "perfect", "exactly", "absolutely", "definitely",
   "sure", "good", "great", "fine", "proceed", "go ahead", "continue",
   "that\x27s right", "sounds good", "looks good", "all good", "excellent"]

/-- The negative phrase list `self.negative_responses` (lines 51-55). -/
def negative_responses : List String :=
  ["no", "nope", "not", "wrong", "incorrect", "false", "negative",
   "not right", "not correct", "not perfect", "that\x27s wrong",
   "not good", "bad", "fix it", "change it", "redo", "again"]

/-- `is_positive_response` (lines 429-434): exact match against the list,
else substring containment of any list entry. -/
def is_positive_response (text : String) : Bool :=
  let tl := pyStrip (pyLower text)
  positive_responses.contains tl
    || positive_responses.any (fun w => strContains tl w)

/-- `is_negative_response` (lines 436-441). -/
def is_negative_response (text : String) : Bool :=
  let tl := pyStrip (pyLower text)
  negative_responses.contains tl
    || negative_responses.any (fun w => strContains tl w)

/-- The off-topic keyword set (lines 444-447). -/
def off_topic_keywords : List String :=
  ["weather", "time", "date", "news", "sports", "music", "movie",
   "food", "restaurant", "travel", "joke", "story", "game"]

/-- `is_off_topic_question` (lines 443-448). -/
def is_off_topic_question (text : String) : Bool :=
  off_topic_keywords.any (fun k => strContains (pyLower text) k)

/-! ## Field extractors (`server.py` lines 466-598) -/

/-- The skip phrases of `extract_name` (lines 468-471). -/
def name_skip_phrases : List String :=
  ["what\x27s your name", "your name is", "what is your name",
   "tell me your name", "can you tell me", "please tell me"]

/-- `extract_name` (lines 466-484): reject echoed bot questions, strip
self-reference phrases, require 2-50 letters-and-spaces, title-case. -/
def extract_name (text : String) : Option String :=
  if name_skip_phrases.any (fun p => strContains (pyLower text) p) then none
  else
    let name := pyStrip (removePatsCI ["my name is", "i am", "i\x27m", "call me"]
      (pyStrip text))
    if name.data.length < 2 || name.data.length > 50
        || !(name.data ≠ [] && name.data.all fun c => c.isAlpha || wsB c) then
      none
    else some (pyTitle name)

/-- `extract_company` (lines 486-496). -/
def extract_company (text : String) : Option String :=
  if text = "" || (pyStrip text).data.length < 2 then none
  else
    let company := pyStrip (removePatsCI
      ["i work at", "my company is", "company is", "i\x27m from",
       "i work for", "company"] (pyStrip text))
    if company.data.length < 2 || company.data.length > 100 then none
    else some (pyTitle company)

/-- `extract_country` (lines 588-598). -/
def extract_country (text : String) : Option String :=
  if text = "" || (pyStrip text).data.length < 2 then none
  else
    let country := pyStrip (removePatsCI
      ["i am from", "i\x27m from", "from", "country is", "my country"]
      (pyLower (pyStrip text)))
    if country.data.length < 2 || country.data.length > 50 then none
    else some (pyTitle country)

/-- The number-word table of `extract_phone` (lines 547-551), in source
order; Python dicts iterate in insertion order. -/
def number_words : List (String × String) :=
  [("zero", "0"), ("one", "1"), ("two", "2"), ("three", "3"), ("four", "4"),
   ("five", "5"), ("six", "6"), ("seven", "7"), ("eight", "8"), ("nine", "9"),
   ("oh", "0"), ("o", "0")]

/-- Lookup in `number_words` with a default (Python `dict.get(w, w)`). -/
def numberWordOr (w : String) : String :=
  match number_words.lookup w with
  | some d => d
  | none => w

/-- Word characters of `\w` on ASCII. -/
def wordCharB (c : Char) : Bool := c.isAlphanum || c = '_'

/-- Does the list start with a whitespace character (first step of `\s+`)? -/
def headWs : List Char → Bool
  | [] => false
  | c :: _ => wsB c

/-- `l` concatenated with itself `k` times (Python `s * k`). -/
def repList (k : Nat) (l : List Char) : List Char :=
  match k with
  | 0 => []
  | k + 1 => l ++ repList k l

/-- `re.sub(r'plus\s+', '+', text)` (line 554): the literal `plus` followed
by at least one whitespace character becomes `+`. -/
def subPlusGo : Nat → List Char → List Char
  | 0, l => l
  | _ + 1, [] => []
  | fuel + 1, c :: t =>
    if "plus".data.isPrefixOf (c :: t) && headWs ((c :: t).drop 4) then
      '+' :: subPlusGo fuel (((c :: t).drop 4).dropWhile wsB)
    else c :: subPlusGo fuel t

/-- `re.sub(r'country\s+code\s+', '+', text)` (line 555). -/
def subCountryCodeGo : Nat → List Char → List Char
  | 0, l => l
  | _ + 1, [] => []
  | fuel + 1, c :: t =>
    let l := c :: t
    let t1 := l.drop 7
    let t2 := t1.dropWhile wsB
    let t3 := t2.drop 4
    let t4 := t3.dropWhile wsB
    if "country".data.isPrefixOf l && headWs t1
        && "code".data.isPrefixOf t2 && headWs t3 then
      '+' :: subCountryCodeGo fuel t4
    else c :: subCountryCodeGo fuel t

/-- `re.sub(r'double\s+(\w+)', ...)` and its `triple` twin (lines 558-559):
the captured word, translated through `number_words` when possible, is
repeated `k` times. -/
def subRepeatGo (lit : List Char) (k : Nat) : Nat → List Char → List Char
  | 0, l => l
  | _ + 1, [] => []
  | fuel + 1, c :: t =>
    let l := c :: t
    let t1 := l.drop lit.length
    let t2 := t1.dropWhile wsB
    let w := t2.takeWhile wordCharB
    if lit.isPrefixOf l && headWs t1 && !w.isEmpty then
      repList k (numberWordOr ⟨w⟩).data ++ subRepeatGo lit k fuel (t2.drop w.length)
    else c :: subRepeatGo lit k fuel t

/-- `re.sub(r'(\d)\s+(\d)', r'\1\2', text)` (line 566): close a whitespace
gap between two digits; scanning resumes after the second digit. -/
def closeDigitGapsGo : Nat → List Char → List Char
  | 0, l => l
  | _ + 1, [] => []
  | fuel + 1, c :: t =>
    let t2 := t.dropWhile wsB
    if c.isDigit && headWs t then
      match t2 with
      | d :: t3 => if d.isDigit then c :: d :: closeDigitGapsGo fuel t3
                   else c :: closeDigitGapsGo fuel t
      | [] => c :: closeDigitGapsGo fuel t
    else c :: closeDigitGapsGo fuel t

/-- The cleaning pipeline of `extract_phone` (lines 544-567), ending with
`phone_chars = re.sub(r'[^\d\+]', '', text)`: only digits and `+` signs
survive. -/
def phone_pre_filter (text : String) : List Char :=
  let t := pyStrip (pyLower text)
  let t : List Char := subPlusGo (t.data.length + 1) t.data
  let t := subCountryCodeGo (t.length + 1) t
  let t := subRepeatGo "double".data 2 (t.length + 1) t
  let t := subRepeatGo "triple".data 3 (t.length + 1) t
  let t := number_words.foldl (fun s p => (pyReplace ⟨s⟩ p.1 p.2).data) t
  closeDigitGapsGo (t.length + 1) t

/-- `phone_chars` of line 567: keep only digits and `+` signs. -/
def phone_chars_of (text : String) : List Char :=
  (phone_pre_filter text).filter fun c => c.isDigit || c = '+'

/-- `extract_phone` (lines 540-577). -/
def extract_phone (text : String) : Option String :=
  if text = "" || (pyStrip text).data.length < 3 then none
  else
    match phone_chars_of text with
    | '+' :: rest =>
      if 8 ≤ rest.length && rest.length ≤ 15 then some ⟨'+' :: rest⟩ else none
    | l =>
      if 8 ≤ l.length && l.length ≤ 15 then some ⟨l⟩ else none

/-- `validate_phone` (lines 579-586): digits only, or `+` followed by
digits only, 8-15 digits. -/
def validate_phone (phone : String) : Bool :=
  match phone.data with
  | [] => false
  | '+' :: rest => 8 ≤ rest.length && rest.length ≤ 15 && pyIsdigitL rest
  | l => 8 ≤ l.length && l.length ≤ 15 && pyIsdigitL l

/-! ## Country-code formatting (`server.py` lines 60-71, 600-614) -/

/-- The static country-name-to-calling-code table `self.country_codes`
(lines 60-71). -/
def country_codes : List (String × String) :=
  [("usa", "+1"), ("united states", "+1"), ("america", "+1"), ("us", "+1"),
   ("india", "+91"), ("uk", "+44"), ("united kingdom", "+44"), ("britain", "+44"),
   ("canada", "+1"), ("australia", "+61"), ("germany", "+49"), ("france", "+33"),
   ("japan", "+81"), ("china", "+86"), ("brazil", "+55"), ("russia", "+7"),
   ("italy", "+39"), ("spain", "+34"), ("netherlands", "+31"), ("sweden", "+46"),
   ("norway", "+47"), ("denmark", "+45"), ("finland", "+358"), ("poland", "+48"),
   ("turkey", "+90"), ("south africa", "+27"), ("egypt", "+20"), ("nigeria", "+234"),
   ("kenya", "+254"), ("ghana", "+233"), ("uae", "+971"), ("saudi arabia", "+966"),
   ("singapore", "+65"), ("malaysia", "+60"), ("thailand", "+66"), ("philippines", "+63"),
   ("indonesia", "+62"), ("vietnam", "+84"), ("south korea", "+82"), ("taiwan", "+886")]

/-- `format_phone_with_country` (lines 600-614): prefix the calling code of
the (lower-cased) country unless the phone already starts with `+` or the
country is not in the table. -/
def format_phone_with_country (phone country : String) : String :=
  if phone = "" ∨ country = "" then phone
  else if pyStartsWith phone "+" then phone
  else
    match country_codes.lookup (pyLower country) with
    | some code => code ++ phone
    | none => phone

/-! ## Email extraction (`server.py` lines 498-538) -/

/-- The ordered spoken-form substitution table of `extract_email`
(lines 505-516), in source order; Python dicts iterate in insertion order. -/
def email_replacements : List (String × String) :=
  [(" at the rate ", "@"), (" at ", "@"), (" @ ", "@"), (" add ", "@"),
   (" dot ", "."), (" period ", "."), (" point ", "."), (" full stop ", "."),
   (" gmail ", "gmail"), (" g mail ", "gmail"), (" jemail ", "gmail"),
   (" yahoo ", "yahoo"), (" ya who ", "yahoo"), (" yahu ", "yahoo"),
   (" hotmail ", "hotmail"), (" hot mail ", "hotmail"),
   (" outlook ", "outlook"), (" out look ", "outlook"),
   (" underscore ", "_"), (" dash ", "-"), (" hyphen ", "-"),
   ("dot com", ".com"), ("dot org", ".org"), ("dot net", ".net"), ("dot in", ".in"),
   ("gmail dot com", "gmail.com"), ("yahoo dot com", "yahoo.com"),
   ("hotmail dot com", "hotmail.com"), ("outlook dot com", "outlook.com")]

/-- `re.sub(r'\s*X\s*', 'X', text)` for a fixed character `X` (lines
523-524): whitespace around each occurrence of `X` is removed. -/
def collapseWsAroundGo (target : Char) : Nat → List Char → List Char
  | 0, l => l
  | _ + 1, [] => []
  | fuel + 1, c :: t =>
    if c = target then c :: collapseWsAroundGo target fuel (t.dropWhile wsB)
    else if wsB c then
      match (c :: t).dropWhile wsB with
      | a :: t2 =>
        if a = target then a :: collapseWsAroundGo target fuel (t2.dropWhile wsB)
        else c :: collapseWsAroundGo target fuel t
      | [] => c :: collapseWsAroundGo target fuel t
    else c :: collapseWsAroundGo target fuel t

/-- Character class `[a-zA-Z0-9._-]` of the local part. -/
def localClassB (c : Char) : Bool := c.isAlphanum || c = '.' || c = '_' || c = '-'

/-- Character class `[a-zA-Z0-9.-]` of the domain part. -/
def domClassB (c : Char) : Bool := c.isAlphanum || c = '.' || c = '-'

/-- Local part of the email regex: `[a-zA-Z0-9][a-zA-Z0-9._-]*`. -/
def localOk : List Char → Bool
  | [] => false
  | c :: rest => c.isAlphanum && rest.all localClassB

/-- Domain of the email regex, anchored to the end of the list:
`[a-zA-Z0-9][a-zA-Z0-9.-]*\.[a-zA-Z]{2,}$`.  A matching split must put
the final dot before the maximal alphabetic suffix. -/
def domainOk : List Char → Bool
  | [] => false
  | d0 :: body =>
    let rev := body.reverse
    let tldRev := rev.takeWhile Char.isAlpha
    match rev.drop tldRev.length with
    | '.' :: midRev =>
      d0.isAlphanum && 2 ≤ tldRev.length && midRev.all domClassB
    | _ => false

/-- The strict anchored email pattern of line 528
(`^[a-zA-Z0-9][a-zA-Z0-9._-]*@[a-zA-Z0-9][a-zA-Z0-9.-]*\.[a-zA-Z]{2,}$`):
the local part runs to the first `@`, the rest must be a matching domain. -/
def strictEmailMatch (l : List Char) : Bool :=
  let loc := l.takeWhile (fun c => c ≠ '@')
  match l.drop loc.length with
  | '@' :: domain => localOk loc && domainOk domain
  | _ => false

/-- Rightmost `.` of the list that is directly followed by at least two
alphabetic characters; returns the segment before the dot and the maximal
alphabetic run after it (the backtracking choice the `re` engine makes for
`[a-zA-Z0-9.-]*\.[a-zA-Z]{2,}`). -/
def lastDotSplit : List Char → Option (List Char × List Char)
  | [] => none
  | c :: rest =>
    match lastDotSplit rest with
    | some (pre, m) => some (c :: pre, m)
    | none =>
      if c = '.' then
        let m := rest.takeWhile Char.isAlpha
        if 2 ≤ m.length then some ([], m) else none
      else none

/-- Attempt of the unanchored loose email pattern of line 533 at the head
of the list. -/
def tryLooseAt : List Char → Option (List Char)
  | [] => none
  | c :: rest =>
    if c.isAlphanum then
      let loc := rest.takeWhile localClassB
      match rest.drop loc.length with
      | '@' :: d0 :: drest =>
        if d0.isAlphanum then
          let run := drest.takeWhile domClassB
          match lastDotSplit run with
          | some (pre, m) => some (c :: (loc ++ '@' :: d0 :: (pre ++ '.' :: m)))
          | none => none
        else none
      | _ => none
    else none

/-- Leftmost match of the loose email pattern (`re.findall(...)[0]`,
lines 533-536). -/
def looseScan : List Char → Option (List Char)
  | [] => none
  | c :: t =>
    match tryLooseAt (c :: t) with
    | some m => some m
    | none => looseScan t

/-- `extract_email` (lines 498-538): lower-case, apply the ordered
substitution table, clean whitespace, validate strictly, and fall back to
the first loose email-shaped token. -/
def extract_email (text : String) : Option String :=
  if text = "" || (pyStrip text).data.length < 5 then none
  else
    let t := pyStrip (pyLower text)
    let t := email_replacements.foldl (fun s p => pyReplace s p.1 p.2) t
    let t : List Char := collapseWsAroundGo '@' (t.data.length + 1) t.data
    let t := collapseWsAroundGo '.' (t.length + 1) t
    let cand := t.filter (fun c => !wsB c)
    if strictEmailMatch cand then some (pyLower ⟨cand⟩)
    else
      match looseScan t with
      | some m => some (pyLower ⟨m⟩)
      | none => none

/-! ## Data model

The visitor record is a Python dict with string keys; only the five
field keys drive the conversation logic (the sink additionally stamps
`timestamp`/`event` at save time, outside this model).  An `Option String`
field is `none` when the key is absent from the dict. -/

/-- The visitor record as carried through a turn (a possibly partial dict). -/
structure PRecord where
  name : Option String
  company : Option String
  email : Option String
  phone : Option String
  country : Option String
deriving DecidableEq

/-- `self.empty_user_data` (line 57): all five keys present and empty. -/
def PRecord.empty_user_data : PRecord :=
  ⟨some "", some "", some "", some "", some ""⟩

/-- A complete record (all five keys present). -/
structure Record where
  name : String
  company : String
  email : String
  phone : String
  country : String
deriving DecidableEq

/-- Inject a complete record into the partial-dict model. -/
def Record.toP (r : Record) : PRecord :=
  ⟨some r.name, some r.company, some r.email, some r.phone, some r.country⟩

/-- The turn output JSON produced by every handler.  `show_manual_input`
and `manual_field` default to absent (`false`/`""`) as in the dicts that
omit those keys.  `sinkCalls` instruments how many times the handler
invoked `save_visitor_data` (0 or 1); it is not part of the JSON. -/
structure Output where
  bot_response : String
  new_state : String
  updated_data : PRecord
  current_field : String
  awaiting_confirmation : Bool
  show_manual_input : Bool := false
  manual_field : String := ""
  sinkCalls : Nat := 0
deriving DecidableEq

/-- Equality of modelled turn results is decidable, so concrete runs can
be checked by evaluation. -/
instance {e a : Type} [DecidableEq e] [DecidableEq a] : DecidableEq (Except e a)
  | .error x, .error y =>
    if h : x = y then .isTrue (by rw [h]) else .isFalse (fun hc => h (by cases hc; rfl))
  | .error _, .ok _ => .isFalse (fun hc => Except.noConfusion hc)
  | .ok _, .error _ => .isFalse (fun hc => Except.noConfusion hc)
  | .ok x, .ok y =>
    if h : x = y then .isTrue (by rw [h]) else .isFalse (fun hc => h (by cases hc; rfl))

/-- Reading a dict key: an absent key raises `KeyError`, modelled by
`Except.error`. -/
def getE : Option String → Except Unit String
  | some s => .ok s
  | none => .error ()

/-- `save_visitor_data` (lines 616-637): the record sink.  The write either
succeeds or fails (`sinkOk`); every exception is caught and logged inside
the function (lines 636-637), so nothing is raised and the five modelled
fields come back unchanged.  (The function also stamps `timestamp` and
`event` keys, which lie outside the five-field model.) -/
def save_visitor_data (sinkOk : Bool) (d : PRecord) : PRecord × Bool :=
  (d, sinkOk)

/-! ## Dialogue state handlers (`server.py` lines 77-427) -/

/-- The redirect phrases of `handle_off_topic` (lines 451-455). -/
def offTopicResponses : List String :=
  ["That\x27s interesting! But let\x27s focus on getting your details for the AWS Community Day event. How are you today?",
   "I appreciate your question! However, I\x27m here to help collect your information for our event. How are you feeling today?",
   "Great question! Let\x27s get back to our registration process. How are you doing?"]

/-- `handle_off_topic` (lines 450-464); `random.choice` over the three
responses is modelled by an external choice index reduced mod 3. -/
def handle_off_topic (choice : Nat) (_user_input : String) (d : PRecord) : Output :=
  { bot_response := offTopicResponses.getD (choice % 3) "",
    new_state := "greeting", updated_data := d, current_field := "",
    awaiting_confirmation := false }

/-- The positive mood lexicon of `handle_greeting` (line 82). -/
def greeting_positive_words : List String :=
  ["good", "fine", "great", "well", "excellent", "awesome", "fantastic", "ok", "okay"]

/-- The negative mood lexicon of `handle_greeting` (line 83). -/
def greeting_negative_words : List String :=
  ["not good", "bad", "terrible", "awful", "not well", "sick", "tired",
   "stressed", "not doing good", "not great"]

/-- `handle_greeting` (lines 77-113): off-topic check first, then the
negative mood lexicon, then the positive one, else re-prompt. -/
def handle_greeting (choice : Nat) (user_input : String) (d : PRecord)
    (_cf : String) (_await : Bool) : Except Unit Output :=
  if is_off_topic_question user_input then .ok (handle_off_topic choice user_input d)
  else
    let ul := pyLower user_input
    if greeting_negative_words.any (fun w => strContains ul w) then
      .ok { bot_response := "I\x27m sorry to hear that. I hope our event can brighten your day! Let\x27s get you registered. What\x27s your name?",
            new_state := "collect_name", updated_data := d,
            current_field := "name", awaiting_confirmation := false }
    else if greeting_positive_words.any (fun w => strContains ul w) then
      .ok { bot_response := "Wonderful! Let\x27s get started. What\x27s your name?",
            new_state := "collect_name", updated_data := d,
            current_field := "name", awaiting_confirmation := false }
    else
      .ok { bot_response := "Hello! How are you doing today?",
            new_state := "greeting", updated_data := d,
            current_field := "", awaiting_confirmation := false }

/-- `handle_name_collection` (lines 115-169). -/
def handle_name_collection (user_input : String) (d : PRecord)
    (_cf : String) (await : Bool) : Except Unit Output :=
  if await then
    if is_positive_response user_input then do
      let n ← getE d.name
      pure { bot_response := "Excellent! Which company do you work for, " ++ n ++ "?",
             new_state := "collect_company", updated_data := d,
             current_field := "company", awaiting_confirmation := false }
    else if is_negative_response user_input then
      .ok { bot_response := "No problem! Please tell me your correct name, or if you prefer, you can type it manually.",
            new_state := "collect_name",
            updated_data := { d with name := some "" },
            current_field := "name", awaiting_confirmation := false,
            show_manual_input := true, manual_field := "name" }
    else
      .ok { bot_response := "I didn\x27t understand. Is your name correct? Please say yes or no.",
            new_state := "collect_name", updated_data := d,
            current_field := "name", awaiting_confirmation := true }
  else
    let fail : Except Unit Output :=
      .ok { bot_response := "I couldn\x27t catch your name clearly. Could you please speak your name slowly, or type it manually?",
            new_state := "collect_name", updated_data := d,
            current_field := "name", awaiting_confirmation := false,
            show_manual_input := true, manual_field := "name" }
    match extract_name user_input with
    | some n =>
      if n = "" then fail
      else .ok { bot_response := "I heard your name as " ++ n ++ ". Is that correct?",
                 new_state := "collect_name",
                 updated_data := { d with name := some n },
                 current_field := "name", awaiting_confirmation := true }
    | none => fail

/-- `handle_company_collection` (lines 171-225). -/
def handle_company_collection (user_input : String) (d : PRecord)
    (_cf : String) (await : Bool) : Except Unit Output :=
  if await then
    if is_positive_response user_input then
      .ok { bot_response := "Perfect! Now, what\x27s your email address?",
            new_state := "collect_email", updated_data := d,
            current_field := "email", awaiting_confirmation := false }
    else if is_negative_response user_input then
      .ok { bot_response := "Let me get that right. Which company do you work for? You can speak it or type it manually.",
            new_state := "collect_company",
            updated_data := { d with company := some "" },
            current_field := "company", awaiting_confirmation := false,
            show_manual_input := true, manual_field := "company" }
    else
      .ok { bot_response := "Is your company name correct? Please say yes or no.",
            new_state := "collect_company", updated_data := d,
            current_field := "company", awaiting_confirmation := true }
  else
    let fail : Except Unit Output :=
      .ok { bot_response := "Could you please tell me your company name clearly, or type it manually?",
            new_state := "collect_company", updated_data := d,
            current_field := "company", awaiting_confirmation := false,
            show_manual_input := true, manual_field := "company" }
    match extract_company user_input with
    | some c =>
      if c ≠ "" && 1 < (pyStrip c).data.length then
        .ok { bot_response := "I heard your company as " ++ c ++ ". Is that correct?",
              new_state := "collect_company",
              updated_data := { d with company := some c },
              current_field := "company", awaiting_confirmation := true }
      else fail
    | none => fail

/-- `handle_email_collection` (lines 227-281). -/
def handle_email_collection (user_input : String) (d : PRecord)
    (_cf : String) (await : Bool) : Except Unit Output :=
  if await then
    if is_positive_response user_input then
      .ok { bot_response := "Excellent! Now, what\x27s your phone number?",
            new_state := "collect_phone", updated_data := d,
            current_field := "phone", awaiting_confirmation := false }
    else if is_negative_response user_input then
      .ok { bot_response := "Let me get your email right. Please speak it clearly like \x27john at gmail dot com\x27, or type it manually.",
            new_state := "collect_email",
            updated_data := { d with email := some "" },
            current_field := "email", awaiting_confirmation := false,
            show_manual_input := true, manual_field := "email" }
    else
      .ok { bot_response := "Is your email address correct? Please say yes or no.",
            new_state := "collect_email", updated_data := d,
            current_field := "email", awaiting_confirmation := true }
  else
    let fail : Except Unit Output :=
      .ok { bot_response := "I couldn\x27t catch your email clearly. Please speak it like \x27john at gmail dot com\x27, or type it manually.",
            new_state := "collect_email", updated_data := d,
            current_field := "email", awaiting_confirmation := false,
            show_manual_input := true, manual_field := "email" }
    match extract_email user_input with
    | some em =>
      if em = "" then fail
      else .ok { bot_response := "I heard your email as " ++ em ++ ". Is that correct?",
                 new_state := "collect_email",
                 updated_data := { d with email := some em },
                 current_field := "email", awaiting_confirmation := true }
    | none => fail

/-- `handle_phone_collection` (lines 283-337). -/
def handle_phone_collection (user_input : String) (d : PRecord)
    (_cf : String) (await : Bool) : Except Unit Output :=
  if await then
    if is_positive_response user_input then
      .ok { bot_response := "Great! Which country are you from? This helps me format your number correctly.",
            new_state := "collect_country", updated_data := d,
            current_field := "country", awaiting_confirmation := false }
    else if is_negative_response user_input then
      .ok { bot_response := "No problem! Please provide your correct phone number.",
            new_state := "collect_phone",
            updated_data := { d with phone := some "" },
            current_field := "phone", awaiting_confirmation := false,
            show_manual_input := true, manual_field := "phone" }
    else
      .ok { bot_response := "Is your phone number correct? Please say yes or no.",
            new_state := "collect_phone", updated_data := d,
            current_field := "phone", awaiting_confirmation := true }
  else
    let fail : Except Unit Output :=
      .ok { bot_response := "Please speak your phone number digit by digit, like \x27nine eight seven six five four three two one\x27.",
            new_state := "collect_phone", updated_data := d,
            current_field := "phone", awaiting_confirmation := false,
            show_manual_input := true, manual_field := "phone" }
    match extract_phone user_input with
    | some p =>
      if p ≠ "" && validate_phone p then
        .ok { bot_response := "I heard your phone number as " ++ p ++ ". Is that correct?",
              new_state := "collect_phone",
              updated_data := { d with phone := some p },
              current_field := "phone", awaiting_confirmation := true }
      else fail
    | none => fail

/-- `handle_country_collection` (lines 339-397).  On an affirmative
confirmation the phone is reformatted with the country code and the
final summary is produced (it interpolates name, company, email and the
reformatted phone — lines 343-346). -/
def handle_country_collection (user_input : String) (d : PRecord)
    (_cf : String) (await : Bool) : Except Unit Output :=
  if await then
    if is_positive_response user_input then do
      let ph ← getE d.phone
      let co ← getE d.country
      let formatted := format_phone_with_country ph co
      let d2 : PRecord := { d with phone := some formatted }
      let n ← getE d2.name
      let cp ← getE d2.company
      let em ← getE d2.email
      pure { bot_response := "Perfect! Let me confirm your details: Name: " ++ n
               ++ ", Company: " ++ cp ++ ", Email: " ++ em ++ ", Phone: "
               ++ formatted ++ ". Should I submit this information?",
             new_state := "final_confirmation", updated_data := d2,
             current_field := "", awaiting_confirmation := false }
    else if is_negative_response user_input then
      .ok { bot_response := "Which country are you from?",
            new_state := "collect_country",
            updated_data := { d with country := some "" },
            current_field := "country", awaiting_confirmation := false,
            show_manual_input := true, manual_field := "country" }
    else
      .ok { bot_response := "Is your country correct? Please say yes or no.",
            new_state := "collect_country", updated_data := d,
            current_field := "country", awaiting_confirmation := true }
  else
    let fail : Except Unit Output :=
      .ok { bot_response := "Could you please tell me your country name clearly?",
            new_state := "collect_country", updated_data := d,
            current_field := "country", awaiting_confirmation := false,
            show_manual_input := true, manual_field := "country" }
    match extract_country user_input with
    | some co =>
      if co = "" then fail
      else .ok { bot_response := "I heard " ++ co ++ ". Is that correct?",
                 new_state := "collect_country",
                 updated_data := { d with country := some co },
                 current_field := "country", awaiting_confirmation := true }
    | none => fail

/-- `handle_final_confirmation` (lines 399-427): affirmative saves the
record (exactly one sink call) and finishes; negative resets to an empty
record and restarts at name collection; anything else re-prompts. -/
def handle_final_confirmation (sinkOk : Bool) (user_input : String) (d : PRecord)
    (_cf : String) (_await : Bool) : Except Unit Output :=
  if is_positive_response user_input then
    let saved := (save_visitor_data sinkOk d).1
    .ok { bot_response := "Fantastic! Your information has been successfully submitted. Thank you for visiting Operisoft at the Community Day event. We\x27ll be in touch soon!",
          new_state := "finished", updated_data := saved,
          current_field := "", awaiting_confirmation := false, sinkCalls := 1 }
  else if is_negative_response user_input then
    .ok { bot_response := "No problem! Let\x27s start fresh. What\x27s your name?",
          new_state := "collect_name", updated_data := PRecord.empty_user_data,
          current_field := "name", awaiting_confirmation := false }
  else
    .ok { bot_response := "Should I submit your information? Please say yes to submit or no to start over.",
          new_state := "final_confirmation", updated_data := d,
          current_field := "", awaiting_confirmation := false }

/-- `VoiceBotManager.process_conversation` (lines 73-75): dispatch on the
state name; any unknown state (including `finished`) falls back to the
greeting handler. -/
def process_conversation (choice : Nat) (sinkOk : Bool) (user_input state : String)
    (d : PRecord) (cf : String) (await : Bool) : Except Unit Output :=
  if state = "greeting" then handle_greeting choice user_input d cf await
  else if state = "collect_name" then handle_name_collection user_input d cf await
  else if state = "collect_company" then handle_company_collection user_input d cf await
  else if state = "collect_email" then handle_email_collection user_input d cf await
  else if state = "collect_phone" then handle_phone_collection user_input d cf await
  else if state = "collect_country" then handle_country_collection user_input d cf await
  else if state = "final_confirmation" then handle_final_confirmation sinkOk user_input d cf await
  else handle_greeting choice user_input d cf await

/-- The exception handler of the `/process_conversation` route (lines
663-671): a raised exception is answered with the apology output, echoing
the incoming state and record with `awaiting_confirmation` false. -/
def routeCatch (state : String) (d : PRecord) (cf : String) :
    Except Unit Output → Output
  | .ok o => o
  | .error _ =>
    { bot_response := "I apologize, there was an error. Could you please repeat that?",
      new_state := state, updated_data := d, current_field := cf,
      awaiting_confirmation := false }

/-- The `/process_conversation` route (lines 641-671). -/
def process_conversation_route (choice : Nat) (sinkOk : Bool) (user_input state : String)
    (d : PRecord) (cf : String) (await : Bool) : Output :=
  routeCatch state d cf (process_conversation choice sinkOk user_input state d cf await)

/-- The `/manual_input` route (lines 673-716): a non-blank value is stored
verbatim (trimmed) and the conversation advances along the fixed field
order; the last field produces the submit summary.  A field outside the
five raises `ValueError` at `field_order.index(field)` and the route
answers HTTP 500 (`Except.error` here; the preceding dict write is not
observable through that reply).  A blank value re-prompts on the same
field. -/
def handle_manual_input (field value : String) (d : PRecord) : Except Unit Output :=
  if field ≠ "" && pyStrip value ≠ "" then
    let v := pyStrip value
    match field with
    | "name" =>
      .ok { bot_response := "Thank you! Now, what\x27s your company?",
            new_state := "collect_company",
            updated_data := { d with name := some v },
            current_field := "company", awaiting_confirmation := false }
    | "company" =>
      .ok { bot_response := "Thank you! Now, what\x27s your email?",
            new_state := "collect_email",
            updated_data := { d with company := some v },
            current_field := "email", awaiting_confirmation := false }
    | "email" =>
      .ok { bot_response := "Thank you! Now, what\x27s your phone?",
            new_state := "collect_phone",
            updated_data := { d with email := some v },
            current_field := "phone", awaiting_confirmation := false }
    | "phone" =>
      .ok { bot_response := "Thank you! Now, what\x27s your country?",
            new_state := "collect_country",
            updated_data := { d with phone := some v },
            current_field := "country", awaiting_confirmation := false }
    | "country" => do
      let d2 : PRecord := { d with country := some v }
      let n ← getE d2.name
      let cp ← getE d2.company
      let em ← getE d2.email
      let ph ← getE d2.phone
      pure { bot_response := "Perfect! Let me confirm: Name: " ++ n ++ ", Company: "
               ++ cp ++ ", Email: " ++ em ++ ", Phone: " ++ ph
               ++ ". Should I submit this?",
             new_state := "final_confirmation", updated_data := d2,
             current_field := "", awaiting_confirmation := false }
    | _ => .error ()
  else
    .ok { bot_response := "Please enter a valid " ++ field ++ ".",
          new_state := "collect_" ++ field, updated_data := d,
          current_field := field, awaiting_confirmation := false }

/-! ## Session steps and reachability

The transport layer holds the conversation state, record,
`current_field` and `awaiting_confirmation` across a session and passes
them back on the next request; a turn is either a `/process_conversation`
call or a `/manual_input` call.  `Sess.manual` records whether the last
turn offered manual entry (`show_manual_input`/`manual_field`). -/

/-- The eight state names that ever appear in a turn output. -/
def knownStates : List String :=
  ["greeting", "collect_name", "collect_company", "collect_email",
   "collect_phone", "collect_country", "final_confirmation", "finished"]

/-- The fixed field order of the manual-input route (line 685). -/
def fieldNames : List String := ["name", "company", "email", "phone", "country"]

/-- A record field is present and non-empty. -/
def filledB : Option String → Bool
  | some v => !(v == "")
  | none => false

/-- All five record fields are present and non-empty. -/
def allFilled (d : PRecord) : Bool :=
  filledB d.name && filledB d.company && filledB d.email
    && filledB d.phone && filledB d.country

/-- A client-side session snapshot between turns. -/
structure Sess where
  state : String
  data : PRecord
  cf : String
  awaiting : Bool
  manual : Option String
deriving DecidableEq

/-- The initial session: greeting state, all five fields empty. -/
def Sess.start : Sess := ⟨"greeting", PRecord.empty_user_data, "", false, none⟩

/-- The session snapshot carried out of a turn output. -/
def sessOf (o : Output) : Sess :=
  ⟨o.new_state, o.updated_data, o.current_field, o.awaiting_confirmation,
   if o.show_manual_input then some o.manual_field else none⟩

/-- One `/process_conversation` turn. -/
def convNext (choice : Nat) (sinkOk : Bool) (input : String) (s : Sess) : Sess :=
  sessOf (process_conversation_route choice sinkOk input s.state s.data s.cf s.awaiting)

/-- One `/manual_input` turn; an HTTP 500 reply leaves the client session
unchanged. -/
def manualNext (field value : String) (s : Sess) : Sess :=
  match handle_manual_input field value s.data with
  | .ok o => sessOf o
  | .error _ => s

/-- Sessions reachable from the start when the client may call
`/manual_input` at any moment with any field. -/
inductive ReachableAny : Sess → Prop
  | start : ReachableAny Sess.start
  | conv : ∀ {s}, ReachableAny s → ∀ choice sinkOk input,
      ReachableAny (convNext choice sinkOk input s)
  | manual : ∀ {s}, ReachableAny s → ∀ field value,
      ReachableAny (manualNext field value s)

/-- Sessions reachable from the start when `/manual_input` is only invoked
for the field the previous turn offered manual entry for. -/
inductive ReachableOffered : Sess → Prop
  | start : ReachableOffered Sess.start
  | conv : ∀ {s}, ReachableOffered s → ∀ choice sinkOk input,
      ReachableOffered (convNext choice sinkOk input s)
  | manual : ∀ {s f}, ReachableOffered s → s.manual = some f → ∀ value,
      ReachableOffered (manualNext f value s)

/-- The fields guaranteed non-empty on entry to each state: every field
before the state's own field in the fixed order, and all five at
`final_confirmation`. -/
def prefixInv (state : String) (d : PRecord) : Bool :=
  if state = "collect_company" then filledB d.name
  else if state = "collect_email" then filledB d.name && filledB d.company
  else if state = "collect_phone" then
    filledB d.name && filledB d.company && filledB d.email
  else if state = "collect_country" then
    filledB d.name && filledB d.company && filledB d.email && filledB d.phone
  else if state = "final_confirmation" then allFilled d
  else true

/-- The state's own field, non-empty whenever a confirmation is pending. -/
def ownFilled (state : String) (d : PRecord) : Bool :=
  if state = "collect_name" then filledB d.name
  else if state = "collect_company" then filledB d.company
  else if state = "collect_email" then filledB d.email
  else if state = "collect_phone" then filledB d.phone
  else if state = "collect_country" then filledB d.country
  else true

/-- The inductive invariant of offered-manual reachability. -/
def SessInv (s : Sess) : Prop :=
  s.state ∈ knownStates
    ∧ prefixInv s.state s.data = true
    ∧ (s.awaiting = true → ownFilled s.state s.data = true)
    ∧ (∀ f, s.manual = some f → f ∈ fieldNames ∧ s.state = "collect_" ++ f)

/-- Well-formedness of a turn output relative to the incoming state: a
non-empty response, and a next state that is either one of the known
state names or the echoed incoming state. -/
def wellFormedOutput (state : String) (o : Output) : Prop :=
  o.bot_response ≠ "" ∧ (o.new_state ∈ knownStates ∨ o.new_state = state)

/-! ## Concrete evaluations of the embedded primitives -/

example : extract_email "John DOT Smith AT gmail DOT com" =
    some "john.smith@gmail.com" := by decide
example : extract_email "bob@acme.com" = some "bob@acme.com" := by decide
example : extract_email "no" = none := by decide
example : extract_email "my email is bob at acme dot com ok" =
    some "myemailisbob@acme.comok" := by decide
example : extract_email "contact bob@acme.org thanks!" =
    some "bob@acme.org" := by decide

example : extract_phone "123456789" = some "123456789" := by decide
example : extract_phone "nine eight seven six five four three two one" =
    some "987654321" := by decide
example : extract_phone "double nine 8 7 6 5 4 3 2 1" = some "9987654321" := by decide
example : extract_phone "12 plus 3456789" = some "12+3456789" := by decide
example : validate_phone "12+3456789" = false := by decide
example : validate_phone "987654321" = true := by decide
example : format_phone_with_country "9876543210" "India" = "+919876543210" := by decide
example : format_phone_with_country "9876543210" "Atlantis" = "9876543210" := by decide

example : is_positive_response "not correct" = true := by decide
example : is_negative_response "not correct" = true := by decide
example : is_positive_response "no" = false := by decide
example : is_negative_response "no" = true := by decide
example : extract_name "no" = some "No" := by decide
example : extract_name "my name is john smith" = some "John Smith" := by decide
example : extract_name "what is your name" = none := by decide
example : extract_company "no" = some "No" := by decide
example : extract_country "India" = some "India" := by decide

lemma ks_greeting : ("greeting" : String) ∈ knownStates := by decide

lemma ks_name : ("collect_name" : String) ∈ knownStates := by decide

lemma ks_company : ("collect_company" : String) ∈ knownStates := by decide

lemma ks_email : ("collect_email" : String) ∈ knownStates := by decide

lemma ks_phone : ("collect_phone" : String) ∈ knownStates := by decide

lemma ks_country : ("collect_country" : String) ∈ knownStates := by decide

lemma ks_fc : ("final_confirmation" : String) ∈ knownStates := by decide

lemma ks_finished : ("finished" : String) ∈ knownStates := by decide

lemma sessInv_plain (st : String) (d : PRecord) (cf : String)
    (h1 : st ∈ knownStates) (h2 : prefixInv st d = true) :
    SessInv ⟨st, d, cf, false, none⟩ :=
  ⟨h1, h2, fun h => Bool.noConfusion h, fun _ hf => Option.noConfusion hf⟩

lemma sessInv_await (st : String) (d : PRecord) (cf : String)
    (h1 : st ∈ knownStates) (h2 : prefixInv st d = true)
    (h3 : ownFilled st d = true) :
    SessInv ⟨st, d, cf, true, none⟩ :=
  ⟨h1, h2, fun _ => h3, fun _ hf => Option.noConfusion hf⟩

lemma sessInv_offer (st fld : String) (d : PRecord) (cf : String)
    (h1 : st ∈ knownStates) (h2 : prefixInv st d = true)
    (h4 : fld ∈ fieldNames) (h5 : st = "collect_" ++ fld) :
    SessInv ⟨st, d, cf, false, some fld⟩ :=
  ⟨h1, h2, fun h => Bool.noConfusion h,
   fun _ hf => (Option.some.inj hf) ▸ ⟨h4, h5⟩⟩

@[simp] lemma getE_some (v : String) : getE (some v) = Except.ok v := rfl

@[simp] lemma getE_none : getE none = Except.error () := rfl

@[simp] lemma prefixInv_greeting (d : PRecord) : prefixInv "greeting" d = true := rfl

@[simp] lemma prefixInv_name (d : PRecord) : prefixInv "collect_name" d = true := rfl

@[simp] lemma prefixInv_company (d : PRecord) :
    prefixInv "collect_company" d = filledB d.name := rfl

@[simp] lemma prefixInv_email (d : PRecord) :
    prefixInv "collect_email" d = (filledB d.name && filledB d.company) := rfl

@[simp] lemma prefixInv_phone (d : PRecord) :
    prefixInv "collect_phone" d
      = (filledB d.name && filledB d.company && filledB d.email) := rfl

@[simp] lemma prefixInv_country (d : PRecord) :
    prefixInv "collect_country" d
      = (filledB d.name && filledB d.company && filledB d.email && filledB d.phone) := rfl

@[simp] lemma prefixInv_fc (d : PRecord) :
    prefixInv "final_confirmation" d = allFilled d := rfl

@[simp] lemma prefixInv_finished (d : PRecord) : prefixInv "finished" d = true := rfl

@[simp] lemma ownFilled_name (d : PRecord) :
    ownFilled "collect_name" d = filledB d.name := rfl

@[simp] lemma ownFilled_company (d : PRecord) :
    ownFilled "collect_company" d = filledB d.company := rfl

@[simp] lemma ownFilled_email (d : PRecord) :
    ownFilled "collect_email" d = filledB d.email := rfl

@[simp] lemma ownFilled_phone (d : PRecord) :
    ownFilled "collect_phone" d = filledB d.phone := rfl

@[simp] lemma ownFilled_country (d : PRecord) :
    ownFilled "collect_country" d = filledB d.country := rfl

lemma routeCatch_ok (st : String) (d : PRecord) (cf : String) (o : Output) :
    routeCatch st d cf (.ok o) = o := rfl

lemma routeCatch_err (st : String) (d : PRecord) (cf : String) :
    routeCatch st d cf (.error ())
      = { bot_response := "I apologize, there was an error. Could you please repeat that?",
          new_state := st, updated_data := d, current_field := cf,
          awaiting_confirmation := false } := rfl

@[simp] lemma exceptBind_ok {α β : Type} (a : α) (f : α → Except Unit β) :
    (Except.ok a : Except Unit α) >>= f = f a := rfl

@[simp] lemma exceptBind_err {α β : Type} (f : α → Except Unit β) :
    (Except.error () : Except Unit α) >>= f = Except.error () := rfl

@[simp] lemma exceptPure {α : Type} (a : α) :
    (pure a : Except Unit α) = Except.ok a := rfl

lemma filled_some {o : Option String} (h : filledB o = true) :
    ∃ v, o = some v ∧ v ≠ "" := by
  cases o with
  | none => simp [filledB] at h
  | some v =>
    refine ⟨v, rfl, ?_⟩
    simp [filledB] at h
    exact h

lemma str_append_ne_empty (a b : String) (hb : b ≠ "") : a ++ b ≠ "" := by
  intro h
  apply hb
  have hd : a.data ++ b.data = [] := congrArg String.data h
  have : b.data = [] := (List.append_eq_nil.mp hd).2
  cases b with
  | mk l =>
    cases this
    rfl

lemma format_ne_empty (p c : String) (hp : p ≠ "") :
    format_phone_with_country p c ≠ "" := by
  unfold format_phone_with_country
  split
  · exact hp
  · split
    · exact hp
    · split
      · exact str_append_ne_empty _ _ hp
      · exact hp

lemma inv_step_greeting (st : String) (choice : Nat) (input : String)
    (d : PRecord) (cf : String) (aw : Bool) :
    SessInv (sessOf (routeCatch st d cf (handle_greeting choice input d cf aw))) := by
  cases hot : is_off_topic_question input with
  | true =>
    simp only [handle_greeting, hot, if_true, routeCatch_ok]
    exact sessInv_plain _ _ _ ks_greeting rfl
  | false =>
    cases hneg : greeting_negative_words.any (fun w => strContains (pyLower input) w) with
    | true =>
      simp only [handle_greeting, hot, hneg, Bool.false_eq_true, if_false, if_true,
        routeCatch_ok]
      exact sessInv_plain _ _ _ ks_name rfl
    | false =>
      cases hpos : greeting_positive_words.any (fun w => strContains (pyLower input) w) with
      | true =>
        simp only [handle_greeting, hot, hneg, hpos, Bool.false_eq_true, if_false, if_true,
          routeCatch_ok]
        exact sessInv_plain _ _ _ ks_name rfl
      | false =>
        simp only [handle_greeting, hot, hneg, hpos, Bool.false_eq_true, if_false,
          routeCatch_ok]
        exact sessInv_plain _ _ _ ks_greeting rfl

lemma inv_step_name (input : String) (d : PRecord) (cf : String) (aw : Bool)
    (hown : aw = true → ownFilled "collect_name" d = true) :
    SessInv (sessOf (routeCatch "collect_name" d cf
      (handle_name_collection input d cf aw))) := by
  cases aw with
  | true =>
    cases hp : is_positive_response input with
    | true =>
      cases hdn : d.name with
      | none =>
        simp only [handle_name_collection, hp, if_true, hdn, getE_none,
          exceptBind_err, routeCatch_err]
        exact sessInv_plain _ _ _ ks_name rfl
      | some v =>
        simp only [handle_name_collection, hp, if_true, hdn, getE_some,
          exceptBind_ok, exceptPure, routeCatch_ok]
        exact sessInv_plain _ _ _ ks_company (hown rfl)
    | false =>
      cases hn : is_negative_response input with
      | true =>
        simp only [handle_name_collection, hp, hn, Bool.false_eq_true, if_false,
          if_true, routeCatch_ok]
        exact sessInv_offer _ "name" _ _ ks_name rfl (by decide) rfl
      | false =>
        simp only [handle_name_collection, hp, hn, Bool.false_eq_true, if_false,
          routeCatch_ok]
        exact sessInv_await _ _ _ ks_name rfl (hown rfl)
  | false =>
    cases hx : extract_name input with
    | none =>
      simp only [handle_name_collection, Bool.false_eq_true, if_false, hx,
        routeCatch_ok]
      exact sessInv_offer _ "name" _ _ ks_name rfl (by decide) rfl
    | some n =>
      by_cases hne : n = ""
      · simp only [handle_name_collection, Bool.false_eq_true, if_false, hx, hne,
          if_true, routeCatch_ok]
        exact sessInv_offer _ "name" _ _ ks_name rfl (by decide) rfl
      · simp only [handle_name_collection, Bool.false_eq_true, if_false, hx, hne,
          routeCatch_ok]
        exact sessInv_await _ _ _ ks_name rfl (by simp [filledB, hne])

lemma inv_step_company (input : String) (d : PRecord) (cf : String) (aw : Bool)
    (hpre : prefixInv "collect_company" d = true)
    (hown : aw = true → ownFilled "collect_company" d = true) :
    SessInv (sessOf (routeCatch "collect_company" d cf
      (handle_company_collection input d cf aw))) := by
  cases aw with
  | true =>
    cases hp : is_positive_response input with
    | true =>
      simp only [handle_company_collection, hp, if_true, routeCatch_ok]
      exact sessInv_plain _ _ _ ks_email
        (show prefixInv "collect_email" d = true by
          rw [prefixInv_email, Bool.and_eq_true]
          exact ⟨hpre, hown rfl⟩)
    | false =>
      cases hn : is_negative_response input with
      | true =>
        simp only [handle_company_collection, hp, hn, Bool.false_eq_true, if_false,
          if_true, routeCatch_ok]
        exact sessInv_offer _ "company" _ _ ks_company hpre (by decide) rfl
      | false =>
        simp only [handle_company_collection, hp, hn, Bool.false_eq_true, if_false,
          routeCatch_ok]
        exact sessInv_await _ _ _ ks_company hpre (hown rfl)
  | false =>
    cases hx : extract_company input with
    | none =>
      simp only [handle_company_collection, Bool.false_eq_true, if_false, hx,
        routeCatch_ok]
      exact sessInv_offer _ "company" _ _ ks_company hpre (by decide) rfl
    | some c =>
      by_cases hg : c ≠ "" ∧ 1 < (pyStrip c).data.length
      · have hgb : (decide (c ≠ "") && decide (1 < (pyStrip c).data.length)) = true := by
          simp only [Bool.and_eq_true, decide_eq_true_eq]
          exact hg
        simp only [handle_company_collection, Bool.false_eq_true, if_false, hx, hgb,
          if_true, routeCatch_ok]
        exact sessInv_await _ _ _ ks_company hpre
          (show filledB (some c) = true by simp [filledB, hg.1])
      · have hgb : (decide (c ≠ "") && decide (1 < (pyStrip c).data.length)) = false := by
          rw [Bool.eq_false_iff]
          intro hcontra
          exact hg (by simpa only [Bool.and_eq_true, decide_eq_true_eq] using hcontra)
        simp only [handle_company_collection, Bool.false_eq_true, if_false, hx, hgb,
          routeCatch_ok]
        exact sessInv_offer _ "company" _ _ ks_company hpre (by decide) rfl

lemma inv_step_email (input : String) (d : PRecord) (cf : String) (aw : Bool)
    (hpre : prefixInv "collect_email" d = true)
    (hown : aw = true → ownFilled "collect_email" d = true) :
    SessInv (sessOf (routeCatch "collect_email" d cf
      (handle_email_collection input d cf aw))) := by
  cases aw with
  | true =>
    cases hp : is_positive_response input with
    | true =>
      simp only [handle_email_collection, hp, if_true, routeCatch_ok]
      exact sessInv_plain _ _ _ ks_phone
        (show prefixInv "collect_phone" d = true by
          rw [prefixInv_phone, Bool.and_eq_true]
          exact ⟨hpre, hown rfl⟩)
    | false =>
      cases hn : is_negative_response input with
      | true =>
        simp only [handle_email_collection, hp, hn, Bool.false_eq_true, if_false,
          if_true, routeCatch_ok]
        exact sessInv_offer _ "email" _ _ ks_email hpre (by decide) rfl
      | false =>
        simp only [handle_email_collection, hp, hn, Bool.false_eq_true, if_false,
          routeCatch_ok]
        exact sessInv_await _ _ _ ks_email hpre (hown rfl)
  | false =>
    cases hx : extract_email input with
    | none =>
      simp only [handle_email_collection, Bool.false_eq_true, if_false, hx,
        routeCatch_ok]
      exact sessInv_offer _ "email" _ _ ks_email hpre (by decide) rfl
    | some em =>
      by_cases hne : em = ""
      · simp only [handle_email_collection, Bool.false_eq_true, if_false, hx, hne,
          if_true, routeCatch_ok]
        exact sessInv_offer _ "email" _ _ ks_email hpre (by decide) rfl
      · simp only [handle_email_collection, Bool.false_eq_true, if_false, hx, hne,
          routeCatch_ok]
        exact sessInv_await _ _ _ ks_email hpre (by simp [filledB, hne])

lemma inv_step_phone (input : String) (d : PRecord) (cf : String) (aw : Bool)
    (hpre : prefixInv "collect_phone" d = true)
    (hown : aw = true → ownFilled "collect_phone" d = true) :
    SessInv (sessOf (routeCatch "collect_phone" d cf
      (handle_phone_collection input d cf aw))) := by
  cases aw with
  | true =>
    cases hp : is_positive_response input with
    | true =>
      simp only [handle_phone_collection, hp, if_true, routeCatch_ok]
      exact sessInv_plain _ _ _ ks_country
        (show prefixInv "collect_country" d = true by
          rw [prefixInv_country, Bool.and_eq_true]
          exact ⟨hpre, hown rfl⟩)
    | false =>
      cases hn : is_negative_response input with
      | true =>
        simp only [handle_phone_collection, hp, hn, Bool.false_eq_true, if_false,
          if_true, routeCatch_ok]
        exact sessInv_offer _ "phone" _ _ ks_phone hpre (by decide) rfl
      | false =>
        simp only [handle_phone_collection, hp, hn, Bool.false_eq_true, if_false,
          routeCatch_ok]
        exact sessInv_await _ _ _ ks_phone hpre (hown rfl)
  | false =>
    cases hx : extract_phone input with
    | none =>
      simp only [handle_phone_collection, Bool.false_eq_true, if_false, hx,
        routeCatch_ok]
      exact sessInv_offer _ "phone" _ _ ks_phone hpre (by decide) rfl
    | some p =>
      by_cases hg : p ≠ "" ∧ validate_phone p = true
      · have hgb : (decide (p ≠ "") && validate_phone p) = true := by
          simp only [Bool.and_eq_true, decide_eq_true_eq]
          exact hg
        simp only [handle_phone_collection, Bool.false_eq_true, if_false, hx, hgb,
          if_true, routeCatch_ok]
        exact sessInv_await _ _ _ ks_phone hpre
          (show filledB (some p) = true by simp [filledB, hg.1])
      · have hgb : (decide (p ≠ "") && validate_phone p) = false := by
          rw [Bool.eq_false_iff]
          intro hcontra
          exact hg (by simpa only [Bool.and_eq_true, decide_eq_true_eq] using hcontra)
        simp only [handle_phone_collection, Bool.false_eq_true, if_false, hx, hgb,
          routeCatch_ok]
        exact sessInv_offer _ "phone" _ _ ks_phone hpre (by decide) rfl

lemma inv_step_country (input : String) (d : PRecord) (cf : String) (aw : Bool)
    (hpre : prefixInv "collect_country" d = true)
    (hown : aw = true → ownFilled "collect_country" d = true) :
    SessInv (sessOf (routeCatch "collect_country" d cf
      (handle_country_collection input d cf aw))) := by
  cases aw with
  | true =>
    cases hp : is_positive_response input with
    | true =>
      have h4 : (((filledB d.name && filledB d.company) && filledB d.email)
          && filledB d.phone) = true := hpre
      rw [Bool.and_eq_true, Bool.and_eq_true, Bool.and_eq_true] at h4
      obtain ⟨⟨⟨hna, hcom⟩, hem⟩, hph⟩ := h4
      have hcou : filledB d.country = true := hown rfl
      obtain ⟨pv, hpv, hpne⟩ := filled_some hph
      obtain ⟨cv, hcv, hcvne⟩ := filled_some hcou
      obtain ⟨nv, hnv, hnne⟩ := filled_some hna
      obtain ⟨cov, hcov, hcone⟩ := filled_some hcom
      obtain ⟨ev, hev, hene⟩ := filled_some hem
      have hfne := format_ne_empty pv cv hpne
      simp only [handle_country_collection, hp, if_true, hpv, hcv, hnv, hcov, hev,
        getE_some, exceptBind_ok, exceptPure, routeCatch_ok]
      exact sessInv_plain _ _ _ ks_fc
        (show prefixInv "final_confirmation"
            ⟨some nv, some cov, some ev,
             some (format_phone_with_country pv cv), some cv⟩ = true by
          rw [prefixInv_fc]
          show ((((filledB (some nv) && filledB (some cov)) && filledB (some ev))
            && filledB (some (format_phone_with_country pv cv)))
            && filledB (some cv)) = true
          simp only [Bool.and_eq_true]
          refine ⟨⟨⟨⟨?_, ?_⟩, ?_⟩, ?_⟩, ?_⟩ <;>
            simp [filledB, hnne, hcone, hene, hfne, hcvne])
    | false =>
      cases hn : is_negative_response input with
      | true =>
        simp only [handle_country_collection, hp, hn, Bool.false_eq_true, if_false,
          if_true, routeCatch_ok]
        exact sessInv_offer _ "country" _ _ ks_country hpre (by decide) rfl
      | false =>
        simp only [handle_country_collection, hp, hn, Bool.false_eq_true, if_false,
          routeCatch_ok]
        exact sessInv_await _ _ _ ks_country hpre (hown rfl)
  | false =>
    cases hx : extract_country input with
    | none =>
      simp only [handle_country_collection, Bool.false_eq_true, if_false, hx,
        routeCatch_ok]
      exact sessInv_offer _ "country" _ _ ks_country hpre (by decide) rfl
    | some co =>
      by_cases hne : co = ""
      · simp only [handle_country_collection, Bool.false_eq_true, if_false, hx, hne,
          if_true, routeCatch_ok]
        exact sessInv_offer _ "country" _ _ ks_country hpre (by decide) rfl
      · simp only [handle_country_collection, Bool.false_eq_true, if_false, hx, hne,
          routeCatch_ok]
        exact sessInv_await _ _ _ ks_country hpre (by simp [filledB, hne])

lemma inv_step_fc (sinkOk : Bool) (input : String) (d : PRecord) (cf : String)
    (aw : Bool) (hpre : prefixInv "final_confirmation" d = true) :
    SessInv (sessOf (routeCatch "final_confirmation" d cf
      (handle_final_confirmation sinkOk input d cf aw))) := by
  cases hp : is_positive_response input with
  | true =>
    simp only [handle_final_confirmation, hp, if_true, routeCatch_ok]
    exact sessInv_plain _ _ _ ks_finished rfl
  | false =>
    cases hn : is_negative_response input with
    | true =>
      simp only [handle_final_confirmation, hp, hn, Bool.false_eq_true, if_false,
        if_true, routeCatch_ok]
      exact sessInv_plain _ _ _ ks_name rfl
    | false =>
      simp only [handle_final_confirmation, hp, hn, Bool.false_eq_true, if_false,
        routeCatch_ok]
      exact sessInv_plain _ _ _ ks_fc hpre

lemma sessInv_step_conv {s : Sess} (h : SessInv s) (choice : Nat) (sinkOk : Bool)
    (input : String) : SessInv (convNext choice sinkOk input s) := by
  obtain ⟨st, d, cf, aw, mn⟩ := s
  obtain ⟨hmem, hpre, hown, hman⟩ := h
  simp only [knownStates, List.mem_cons, List.not_mem_nil, or_false] at hmem
  rcases hmem with rfl | rfl | rfl | rfl | rfl | rfl | rfl | rfl
  · exact inv_step_greeting _ choice input d cf aw
  · exact inv_step_name input d cf aw hown
  · exact inv_step_company input d cf aw hpre hown
  · exact inv_step_email input d cf aw hpre hown
  · exact inv_step_phone input d cf aw hpre hown
  · exact inv_step_country input d cf aw hpre hown
  · exact inv_step_fc sinkOk input d cf aw hpre
  · exact inv_step_greeting _ choice input d cf aw

lemma sessInv_step_manual {s : Sess} {f : String} (h : SessInv s)
    (hm : s.manual = some f) (value : String) :
    SessInv (manualNext f value s) := by
  obtain ⟨st, d, cf, aw, mn⟩ := s
  obtain ⟨hmem, hpre, hown, hman⟩ := h
  obtain ⟨hf5, hst⟩ := hman f hm
  simp only [fieldNames, List.mem_cons, List.not_mem_nil, or_false] at hf5
  rcases hf5 with rfl | rfl | rfl | rfl | rfl <;> subst hst
  · by_cases hv : pyStrip value = ""
    · have hgb : (decide (("name" : String) ≠ "") && decide (pyStrip value ≠ "")) = false := by
        simp [hv]
      simp only [manualNext, handle_manual_input, hgb, Bool.false_eq_true, if_false]
      exact sessInv_plain _ _ _ ks_name hpre
    · have hgb : (decide (("name" : String) ≠ "") && decide (pyStrip value ≠ "")) = true := by
        simp [hv]
      simp only [manualNext, handle_manual_input, hgb, if_true]
      exact sessInv_plain _ _ _ ks_company
        (show prefixInv "collect_company" { d with name := some (pyStrip value) } = true by
          simp [filledB, hv])
  · by_cases hv : pyStrip value = ""
    · have hgb : (decide (("company" : String) ≠ "") && decide (pyStrip value ≠ "")) = false := by
        simp [hv]
      simp only [manualNext, handle_manual_input, hgb, Bool.false_eq_true, if_false]
      exact sessInv_plain _ _ _ ks_company hpre
    · have hgb : (decide (("company" : String) ≠ "") && decide (pyStrip value ≠ "")) = true := by
        simp [hv]
      simp only [manualNext, handle_manual_input, hgb, if_true]
      exact sessInv_plain _ _ _ ks_email
        (show prefixInv "collect_email" { d with company := some (pyStrip value) } = true by
          show (filledB d.name && filledB (some (pyStrip value))) = true
          rw [Bool.and_eq_true]
          exact ⟨hpre, by simp [filledB, hv]⟩)
  · by_cases hv : pyStrip value = ""
    · have hgb : (decide (("email" : String) ≠ "") && decide (pyStrip value ≠ "")) = false := by
        simp [hv]
      simp only [manualNext, handle_manual_input, hgb, Bool.false_eq_true, if_false]
      exact sessInv_plain _ _ _ ks_email hpre
    · have hgb : (decide (("email" : String) ≠ "") && decide (pyStrip value ≠ "")) = true := by
        simp [hv]
      simp only [manualNext, handle_manual_input, hgb, if_true]
      exact sessInv_plain _ _ _ ks_phone
        (show prefixInv "collect_phone" { d with email := some (pyStrip value) } = true by
          show ((filledB d.name && filledB d.company)
            && filledB (some (pyStrip value))) = true
          rw [Bool.and_eq_true]
          exact ⟨hpre, by simp [filledB, hv]⟩)
  · by_cases hv : pyStrip value = ""
    · have hgb : (decide (("phone" : String) ≠ "") && decide (pyStrip value ≠ "")) = false := by
        simp [hv]
      simp only [manualNext, handle_manual_input, hgb, Bool.false_eq_true, if_false]
      exact sessInv_plain _ _ _ ks_phone hpre
    · have hgb : (decide (("phone" : String) ≠ "") && decide (pyStrip value ≠ "")) = true := by
        simp [hv]
      simp only [manualNext, handle_manual_input, hgb, if_true]
      exact sessInv_plain _ _ _ ks_country
        (show prefixInv "collect_country" { d with phone := some (pyStrip value) } = true by
          show (((filledB d.name && filledB d.company) && filledB d.email)
            && filledB (some (pyStrip value))) = true
          rw [Bool.and_eq_true]
          exact ⟨hpre, by simp [filledB, hv]⟩)
  · by_cases hv : pyStrip value = ""
    · have hgb : (decide (("country" : String) ≠ "") && decide (pyStrip value ≠ "")) = false := by
        simp [hv]
      simp only [manualNext, handle_manual_input, hgb, Bool.false_eq_true, if_false]
      exact sessInv_plain _ _ _ ks_country hpre
    · have h4 : (((filledB d.name && filledB d.company) && filledB d.email)
          && filledB d.phone) = true := hpre
      rw [Bool.and_eq_true, Bool.and_eq_true, Bool.and_eq_true] at h4
      obtain ⟨⟨⟨hna, hcom⟩, hem⟩, hph⟩ := h4
      obtain ⟨nv, hnv, hnne⟩ := filled_some hna
      obtain ⟨cov, hcov, hcone⟩ := filled_some hcom
      obtain ⟨ev, hev, hene⟩ := filled_some hem
      obtain ⟨pv, hpv, hpne⟩ := filled_some hph
      have hgb : (decide (("country" : String) ≠ "") && decide (pyStrip value ≠ "")) = true := by
        simp [hv]
      simp only [manualNext, handle_manual_input, hgb, if_true, hnv, hcov, hev, hpv,
        getE_some, exceptBind_ok, exceptPure]
      exact sessInv_plain _ _ _ ks_fc
        (show prefixInv "final_confirmation"
            ⟨some nv, some cov, some ev, some pv, some (pyStrip value)⟩ = true by
          rw [prefixInv_fc]
          show ((((filledB (some nv) && filledB (some cov)) && filledB (some ev))
            && filledB (some pv)) && filledB (some (pyStrip value))) = true
          simp only [Bool.and_eq_true]
          refine ⟨⟨⟨⟨?_, ?_⟩, ?_⟩, ?_⟩, ?_⟩ <;>
            simp [filledB, hnne, hcone, hene, hpne, hv])

lemma reachableOffered_inv {s : Sess} (h : ReachableOffered s) : SessInv s := by
  induction h with
  | start => exact sessInv_plain _ _ _ ks_greeting rfl
  | conv _ choice sinkOk input ih => exact sessInv_step_conv ih choice sinkOk input
  | manual _ hm value ih => exact sessInv_step_manual ih hm value

lemma wf_routeCatch {st : String} {d : PRecord} {cf : String} {e : Except Unit Output}
    (hok : ∀ o, e = .ok o → o.bot_response ≠ "" ∧ o.new_state ∈ knownStates) :
    wellFormedOutput st (routeCatch st d cf e) := by
  cases e with
  | ok o =>
    have h := hok o rfl
    exact ⟨h.1, Or.inl h.2⟩
  | error u =>
    cases u
    exact ⟨by simp [routeCatch], Or.inr rfl⟩

lemma wf_greeting (choice : Nat) (input : String) (d : PRecord) (cf : String)
    (aw : Bool) : ∀ o, handle_greeting choice input d cf aw = .ok o →
    o.bot_response ≠ "" ∧ o.new_state ∈ knownStates := by
  intro o h
  have h3 : choice % 3 = 0 ∨ choice % 3 = 1 ∨ choice % 3 = 2 := by omega
  cases hot : is_off_topic_question input with
  | true =>
    simp only [handle_greeting, hot, if_true] at h
    cases h
    refine ⟨?_, ks_greeting⟩
    show offTopicResponses.getD (choice % 3) "" ≠ ""
    rcases h3 with h3 | h3 | h3 <;> rw [h3] <;> decide
  | false =>
    cases hneg : greeting_negative_words.any (fun w => strContains (pyLower input) w) with
    | true =>
      simp only [handle_greeting, hot, hneg, Bool.false_eq_true, if_false, if_true] at h
      cases h
      exact ⟨by simp, ks_name⟩
    | false =>
      cases hpos : greeting_positive_words.any (fun w => strContains (pyLower input) w) with
      | true =>
        simp only [handle_greeting, hot, hneg, hpos, Bool.false_eq_true, if_false,
          if_true] at h
        cases h
        exact ⟨by simp, ks_name⟩
      | false =>
        simp only [handle_greeting, hot, hneg, hpos, Bool.false_eq_true, if_false] at h
        cases h
        exact ⟨by simp, ks_greeting⟩

lemma wf_name (input : String) (d : PRecord) (cf : String) (aw : Bool) :
    ∀ o, handle_name_collection input d cf aw = .ok o →
    o.bot_response ≠ "" ∧ o.new_state ∈ knownStates := by
  intro o h
  cases aw with
  | true =>
    cases hp : is_positive_response input with
    | true =>
      cases hdn : d.name with
      | none =>
        simp only [handle_name_collection, hp, if_true, hdn, getE_none,
          exceptBind_err] at h
        cases h
      | some v =>
        simp only [handle_name_collection, hp, if_true, hdn, getE_some,
          exceptBind_ok, exceptPure] at h
        cases h
        exact ⟨str_append_ne_empty _ _ (by decide), ks_company⟩
    | false =>
      cases hn : is_negative_response input with
      | true =>
        simp only [handle_name_collection, hp, hn, Bool.false_eq_true, if_false,
          if_true] at h
        cases h
        exact ⟨by simp, ks_name⟩
      | false =>
        simp only [handle_name_collection, hp, hn, Bool.false_eq_true, if_false] at h
        cases h
        exact ⟨by simp, ks_name⟩
  | false =>
    cases hx : extract_name input with
    | none =>
      simp only [handle_name_collection, Bool.false_eq_true, if_false, hx] at h
      cases h
      exact ⟨by simp, ks_name⟩
    | some n =>
      by_cases hne : n = ""
      · simp only [handle_name_collection, Bool.false_eq_true, if_false, hx, hne,
          if_true] at h
        cases h
        exact ⟨by simp, ks_name⟩
      · simp only [handle_name_collection, Bool.false_eq_true, if_false, hx, hne] at h
        cases h
        exact ⟨str_append_ne_empty _ _ (by decide), ks_name⟩

lemma wf_company (input : String) (d : PRecord) (cf : String) (aw : Bool) :
    ∀ o, handle_company_collection input d cf aw = .ok o →
    o.bot_response ≠ "" ∧ o.new_state ∈ knownStates := by
  intro o h
  cases aw with
  | true =>
    cases hp : is_positive_response input with
    | true =>
      simp only [handle_company_collection, hp, if_true] at h
      cases h
      exact ⟨by simp, ks_email⟩
    | false =>
      cases hn : is_negative_response input with
      | true =>
        simp only [handle_company_collection, hp, hn, Bool.false_eq_true, if_false,
          if_true] at h
        cases h
        exact ⟨by simp, ks_company⟩
      | false =>
        simp only [handle_company_collection, hp, hn, Bool.false_eq_true, if_false] at h
        cases h
        exact ⟨by simp, ks_company⟩
  | false =>
    cases hx : extract_company input with
    | none =>
      simp only [handle_company_collection, Bool.false_eq_true, if_false, hx] at h
      cases h
      exact ⟨by simp, ks_company⟩
    | some c =>
      cases hg : (decide (c ≠ "") && decide (1 < (pyStrip c).data.length)) with
      | true =>
        simp only [handle_company_collection, Bool.false_eq_true, if_false, hx, hg,
          if_true] at h
        cases h
        exact ⟨str_append_ne_empty _ _ (by decide), ks_company⟩
      | false =>
        simp only [handle_company_collection, Bool.false_eq_true, if_false, hx, hg] at h
        cases h
        exact ⟨by simp, ks_company⟩

lemma wf_email (input : String) (d : PRecord) (cf : String) (aw : Bool) :
    ∀ o, handle_email_collection input d cf aw = .ok o →
    o.bot_response ≠ "" ∧ o.new_state ∈ knownStates := by
  intro o h
  cases aw with
  | true =>
    cases hp : is_positive_response input with
    | true =>
      simp only [handle_email_collection, hp, if_true] at h
      cases h
      exact ⟨by simp, ks_phone⟩
    | false =>
      cases hn : is_negative_response input with
      | true =>
        simp only [handle_email_collection, hp, hn, Bool.false_eq_true, if_false,
          if_true] at h
        cases h
        exact ⟨by simp, ks_email⟩
      | false =>
        simp only [handle_email_collection, hp, hn, Bool.false_eq_true, if_false] at h
        cases h
        exact ⟨by simp, ks_email⟩
  | false =>
    cases hx : extract_email input with
    | none =>
      simp only [handle_email_collection, Bool.false_eq_true, if_false, hx] at h
      cases h
      exact ⟨by simp, ks_email⟩
    | some em =>
      by_cases hne : em = ""
      · simp only [handle_email_collection, Bool.false_eq_true, if_false, hx, hne,
          if_true] at h
        cases h
        exact ⟨by simp, ks_email⟩
      · simp only [handle_email_collection, Bool.false_eq_true, if_false, hx, hne] at h
        cases h
        exact ⟨str_append_ne_empty _ _ (by decide), ks_email⟩

lemma wf_phone (input : String) (d : PRecord) (cf : String) (aw : Bool) :
    ∀ o, handle_phone_collection input d cf aw = .ok o →
    o.bot_response ≠ "" ∧ o.new_state ∈ knownStates := by
  intro o h
  cases aw with
  | true =>
    cases hp : is_positive_response input with
    | true =>
      simp only [handle_phone_collection, hp, if_true] at h
      cases h
      exact ⟨by simp, ks_country⟩
    | false =>
      cases hn : is_negative_response input with
      | true =>
        simp only [handle_phone_collection, hp, hn, Bool.false_eq_true, if_false,
          if_true] at h
        cases h
        exact ⟨by simp, ks_phone⟩
      | false =>
        simp only [handle_phone_collection, hp, hn, Bool.false_eq_true, if_false] at h
        cases h
        exact ⟨by simp, ks_phone⟩
  | false =>
    cases hx : extract_phone input with
    | none =>
      simp only [handle_phone_collection, Bool.false_eq_true, if_false, hx] at h
      cases h
      exact ⟨by simp, ks_phone⟩
    | some p =>
      cases hg : (decide (p ≠ "") && validate_phone p) with
      | true =>
        simp only [handle_phone_collection, Bool.false_eq_true, if_false, hx, hg,
          if_true] at h
        cases h
        exact ⟨str_append_ne_empty _ _ (by decide), ks_phone⟩
      | false =>
        simp only [handle_phone_collection, Bool.false_eq_true, if_false, hx, hg] at h
        cases h
        exact ⟨by simp, ks_phone⟩

lemma wf_country (input : String) (d : PRecord) (cf : String) (aw : Bool) :
    ∀ o, handle_country_collection input d cf aw = .ok o →
    o.bot_response ≠ "" ∧ o.new_state ∈ knownStates := by
  intro o h
  cases aw with
  | true =>
    cases hp : is_positive_response input with
    | true =>
      cases hph : d.phone with
      | none =>
        simp only [handle_country_collection, hp, if_true, hph, getE_none,
          exceptBind_err] at h
        cases h
      | some pv =>
        cases hco : d.country with
        | none =>
          simp only [handle_country_collection, hp, if_true, hph, hco, getE_none,
            getE_some, exceptBind_ok, exceptBind_err] at h
          cases h
        | some cv =>
          cases hna : d.name with
          | none =>
            simp only [handle_country_collection, hp, if_true, hph, hco, hna,
              getE_none, getE_some, exceptBind_ok, exceptBind_err] at h
            cases h
          | some nv =>
            cases hcm : d.company with
            | none =>
              simp only [handle_country_collection, hp, if_true, hph, hco, hna, hcm,
                getE_none, getE_some, exceptBind_ok, exceptBind_err] at h
              cases h
            | some cmv =>
              cases hem : d.email with
              | none =>
                simp only [handle_country_collection, hp, if_true, hph, hco, hna, hcm,
                  hem, getE_none, getE_some, exceptBind_ok, exceptBind_err] at h
                cases h
              | some ev =>
                simp only [handle_country_collection, hp, if_true, hph, hco, hna, hcm,
                  hem, getE_some, exceptBind_ok, exceptPure] at h
                cases h
                exact ⟨str_append_ne_empty _ _ (by decide), ks_fc⟩
    | false =>
      cases hn : is_negative_response input with
      | true =>
        simp only [handle_country_collection, hp, hn, Bool.false_eq_true, if_false,
          if_true] at h
        cases h
        exact ⟨by simp, ks_country⟩
      | false =>
        simp only [handle_country_collection, hp, hn, Bool.false_eq_true, if_false] at h
        cases h
        exact ⟨by simp, ks_country⟩
  | false =>
    cases hx : extract_country input with
    | none =>
      simp only [handle_country_collection, Bool.false_eq_true, if_false, hx] at h
      cases h
      exact ⟨by simp, ks_country⟩
    | some co =>
      by_cases hne : co = ""
      · simp only [handle_country_collection, Bool.false_eq_true, if_false, hx, hne,
          if_true] at h
        cases h
        exact ⟨by simp, ks_country⟩
      · simp only [handle_country_collection, Bool.false_eq_true, if_false, hx, hne] at h
        cases h
        exact ⟨str_append_ne_empty _ _ (by decide), ks_country⟩

lemma wf_fc (sinkOk : Bool) (input : String) (d : PRecord) (cf : String) (aw : Bool) :
    ∀ o, handle_final_confirmation sinkOk input d cf aw = .ok o →
    o.bot_response ≠ "" ∧ o.new_state ∈ knownStates := by
  intro o h
  cases hp : is_positive_response input with
  | true =>
    simp only [handle_final_confirmation, hp, if_true] at h
    cases h
    exact ⟨by simp, ks_finished⟩
  | false =>
    cases hn : is_negative_response input with
    | true =>
      simp only [handle_final_confirmation, hp, hn, Bool.false_eq_true, if_false,
        if_true] at h
      cases h
      exact ⟨by simp, ks_name⟩
    | false =>
      simp only [handle_final_confirmation, hp, hn, Bool.false_eq_true, if_false] at h
      cases h
      exact ⟨by simp, ks_fc⟩

/-! ## Claim theorems -/

/-- C8: the email extractor maps the spoken-form input
`"John DOT Smith AT gmail DOT com"` to exactly `"john.smith@gmail.com"`,
with the ordered substitution table applied (the specific-before-generic
order of `email_replacements` is what produces this value). -/
theorem c8_email_round_trip :
    extract_email "John DOT Smith AT gmail DOT com" = some "john.smith@gmail.com" := by
  decide

/-- C6: the phone-reformatting step satisfies: `"9876543210"` with country
`"India"` becomes `"+919876543210"`; a phone already starting with `"+"`
is unchanged; a country not in the static code table (under the
case-insensitive lower-cased lookup) leaves the phone unchanged. -/
theorem c6_phone_country_formatting (p c : String) :
    format_phone_with_country "9876543210" "India" = "+919876543210"
    ∧ (pyStartsWith p "+" = true → format_phone_with_country p c = p)
    ∧ (country_codes.lookup (pyLower c) = none → format_phone_with_country p c = p) := by
  refine ⟨by decide, fun hp => ?_, fun hl => ?_⟩
  · by_cases h0 : p = "" ∨ c = ""
    · unfold format_phone_with_country
      rw [if_pos h0]
    · unfold format_phone_with_country
      rw [if_neg h0, if_pos hp]
  · by_cases h0 : p = "" ∨ c = ""
    · unfold format_phone_with_country
      rw [if_pos h0]
    · unfold format_phone_with_country
      rw [if_neg h0]
      cases hsw : pyStartsWith p "+" with
      | true => simp
      | false => simp [hl]

/-- C6 witness: the universally quantified parts of
`c6_phone_country_formatting` at concrete inputs — a `"+"`-prefixed phone
is unchanged, and the unknown country `"Atlantis"` leaves the phone
unchanged. -/
theorem c6_phone_country_formatting_witness :
    format_phone_with_country "+15551234" "India" = "+15551234"
    ∧ format_phone_with_country "987654321" "Atlantis" = "987654321" :=
  ⟨(c6_phone_country_formatting "+15551234" "India").2.1 (by decide),
   (c6_phone_country_formatting "987654321" "Atlantis").2.2 (by decide)⟩

/-- C10: in the greeting handler, any non-off-topic input matching the
negative mood lexicon takes the negative-mood branch (empathetic response,
advance to name collection) regardless of also matching the positive
lexicon, because the negative lexicon is checked first (lines 87-96). -/
theorem c10_negative_mood_precedence (choice : Nat) (input : String) (d : PRecord)
    (cf : String) (aw : Bool)
    (hot : is_off_topic_question input = false)
    (hneg : greeting_negative_words.any (fun w => strContains (pyLower input) w) = true)
    (hpos : greeting_positive_words.any (fun w => strContains (pyLower input) w) = true) :
    handle_greeting choice input d cf aw
      = .ok { bot_response := "I\x27m sorry to hear that. I hope our event can brighten your day! Let\x27s get you registered. What\x27s your name?",
              new_state := "collect_name", updated_data := d,
              current_field := "name", awaiting_confirmation := false } := by
  simp [handle_greeting, hot, hneg]

/-- C10 witness: `"not good"` contains the negative phrase `"not good"` and
the positive word `"good"`, is not off-topic, and gets the empathetic
response and the transition to `collect_name`. -/
theorem c10_negative_mood_precedence_witness :
    is_off_topic_question "not good" = false
    ∧ greeting_negative_words.any (fun w => strContains (pyLower "not good") w) = true
    ∧ greeting_positive_words.any (fun w => strContains (pyLower "not good") w) = true
    ∧ handle_greeting 0 "not good" PRecord.empty_user_data "" false
      = .ok { bot_response := "I\x27m sorry to hear that. I hope our event can brighten your day! Let\x27s get you registered. What\x27s your name?",
              new_state := "collect_name", updated_data := PRecord.empty_user_data,
              current_field := "name", awaiting_confirmation := false } :=
  ⟨by decide, by decide, by decide,
   c10_negative_mood_precedence 0 "not good" PRecord.empty_user_data "" false
     (by decide) (by decide) (by decide)⟩

/-- C1 counterexample: with record
`⟨"Alice", "Acme", "a@b.com", "12345678", "France"⟩`, both final-summary
paths transition to `final_confirmation` but the bot response does not
contain the collected country value `"France"`, so it does not restate all
five values. -/
theorem c1_counterexample :
    ((handle_country_collection "yes"
        (Record.mk "Alice" "Acme" "a@b.com" "12345678" "France").toP "" true).map
      (fun o => (o.new_state, strContains o.bot_response "France"))
      = .ok ("final_confirmation", false))
    ∧ ((handle_manual_input "country" "France"
        (Record.mk "Alice" "Acme" "a@b.com" "12345678" "").toP).map
      (fun o => (o.new_state, strContains o.bot_response "France"))
      = .ok ("final_confirmation", false)) := by
  constructor
  · decide
  · decide

/-- C1 (amended): the confirmation prompt produced on entry to
`final_confirmation` — via an affirmative answer in the country-collecting
state or via manual entry of the last field — restates four of the five
collected values (name, company, email and the formatted phone) verbatim,
but omits the country. -/
theorem c1_summary_restates_four (r : Record) (input value cf : String)
    (hpos : is_positive_response input = true)
    (hv : pyStrip value ≠ "") :
    handle_country_collection input r.toP cf true
      = .ok { bot_response := "Perfect! Let me confirm your details: Name: " ++ r.name
                ++ ", Company: " ++ r.company ++ ", Email: " ++ r.email ++ ", Phone: "
                ++ format_phone_with_country r.phone r.country
                ++ ". Should I submit this information?",
              new_state := "final_confirmation",
              updated_data := { r.toP with
                phone := some (format_phone_with_country r.phone r.country) },
              current_field := "", awaiting_confirmation := false }
    ∧ handle_manual_input "country" value r.toP
      = .ok { bot_response := "Perfect! Let me confirm: Name: " ++ r.name
                ++ ", Company: " ++ r.company ++ ", Email: " ++ r.email ++ ", Phone: "
                ++ r.phone ++ ". Should I submit this?",
              new_state := "final_confirmation",
              updated_data := { r.toP with country := some (pyStrip value) },
              current_field := "", awaiting_confirmation := false } := by
  constructor
  · simp only [handle_country_collection, hpos, if_true, Record.toP, getE_some,
      exceptBind_ok, exceptPure]
  · have hgb : (decide (("country" : String) ≠ "") && decide (pyStrip value ≠ "")) = true := by
      simp [hv]
    simp only [handle_manual_input, hgb, if_true, Record.toP, getE_some,
      exceptBind_ok, exceptPure]

/-- C1 (amended) witness: the amended summary equalities at the concrete
record of the counterexample, with input `"yes"` and manual value
`"France"`. -/
theorem c1_summary_restates_four_witness :
    handle_country_collection "yes"
        (Record.mk "Alice" "Acme" "a@b.com" "12345678" "France").toP "" true
      = .ok { bot_response := "Perfect! Let me confirm your details: Name: Alice, Company: Acme, Email: a@b.com, Phone: +3312345678. Should I submit this information?",
              new_state := "final_confirmation",
              updated_data := (Record.mk "Alice" "Acme" "a@b.com" "+3312345678" "France").toP,
              current_field := "", awaiting_confirmation := false }
    ∧ handle_manual_input "country" "France"
        (Record.mk "Alice" "Acme" "a@b.com" "12345678" "").toP
      = .ok { bot_response := "Perfect! Let me confirm: Name: Alice, Company: Acme, Email: a@b.com, Phone: 12345678. Should I submit this?",
              new_state := "final_confirmation",
              updated_data := (Record.mk "Alice" "Acme" "a@b.com" "12345678" "France").toP,
              current_field := "", awaiting_confirmation := false } := by
  have h := c1_summary_restates_four
    (Record.mk "Alice" "Acme" "a@b.com" "12345678" "France") "yes" "France" ""
    (by decide) (by decide)
  exact ⟨h.1.trans (by decide), h.2.trans (by decide)⟩

/-- C3: in `final_confirmation`, an affirmative input invokes the record
sink exactly once (`sinkCalls = 1`), transitions to `finished` and returns
the thank-you message, identically whether the sink write succeeds or
fails; a negative (and not affirmative) input returns the all-empty record
and transitions to `collect_name` without invoking the sink. -/
theorem c3_final_confirmation_behavior (sinkOk : Bool) (input : String)
    (d : PRecord) (cf : String) (aw : Bool) :
    (is_positive_response input = true →
      handle_final_confirmation sinkOk input d cf aw
        = .ok { bot_response := "Fantastic! Your information has been successfully submitted. Thank you for visiting Operisoft at the Community Day event. We\x27ll be in touch soon!",
                new_state := "finished", updated_data := d, current_field := "",
                awaiting_confirmation := false, sinkCalls := 1 }
      ∧ handle_final_confirmation true input d cf aw
        = handle_final_confirmation false input d cf aw)
    ∧ (is_positive_response input = false → is_negative_response input = true →
      handle_final_confirmation sinkOk input d cf aw
        = .ok { bot_response := "No problem! Let\x27s start fresh. What\x27s your name?",
                new_state := "collect_name", updated_data := PRecord.empty_user_data,
                current_field := "name", awaiting_confirmation := false }) := by
  constructor
  · intro hp
    constructor
    · simp only [handle_final_confirmation, hp, if_true, save_visitor_data]
    · simp only [handle_final_confirmation, hp, if_true, save_visitor_data]
  · intro hp hn
    simp only [handle_final_confirmation, hp, hn, Bool.false_eq_true, if_false, if_true]

/-- C3 witness: the affirmative branch at `"yes"` (sink called once, state
`finished`, same output under sink success and failure) and the negative
branch at `"no"` (record reset, state `collect_name`), at a concrete
record. -/
theorem c3_final_confirmation_behavior_witness :
    (handle_final_confirmation true "yes"
        (Record.mk "Alice" "Acme" "a@b.com" "12345678" "India").toP "" false
      = .ok { bot_response := "Fantastic! Your information has been successfully submitted. Thank you for visiting Operisoft at the Community Day event. We\x27ll be in touch soon!",
              new_state := "finished",
              updated_data := (Record.mk "Alice" "Acme" "a@b.com" "12345678" "India").toP,
              current_field := "", awaiting_confirmation := false, sinkCalls := 1 }
      ∧ handle_final_confirmation true "yes"
          (Record.mk "Alice" "Acme" "a@b.com" "12345678" "India").toP "" false
        = handle_final_confirmation false "yes"
          (Record.mk "Alice" "Acme" "a@b.com" "12345678" "India").toP "" false)
    ∧ handle_final_confirmation true "no"
        (Record.mk "Alice" "Acme" "a@b.com" "12345678" "India").toP "" false
      = .ok { bot_response := "No problem! Let\x27s start fresh. What\x27s your name?",
              new_state := "collect_name", updated_data := PRecord.empty_user_data,
              current_field := "name", awaiting_confirmation := false } :=
  ⟨(c3_final_confirmation_behavior true "yes"
      (Record.mk "Alice" "Acme" "a@b.com" "12345678" "India").toP "" false).1 (by decide),
   (c3_final_confirmation_behavior true "no"
      (Record.mk "Alice" "Acme" "a@b.com" "12345678" "India").toP "" false).2
      (by decide) (by decide)⟩

@[simp] lemma exceptMap_ok {α β : Type} (f : α → β) (a : α) :
    Except.map f (Except.ok a : Except Unit α) = .ok (f a) := rfl

/-- C5: any text classified both affirmative and negative takes the
affirmative branch in every confirmation handler, because
`is_positive_response` is consulted first: each handler advances to its
next state rather than clearing the field. -/
theorem c5_affirmative_wins_tie (t : String) (r : Record) (cf : String)
    (sinkOk : Bool)
    (hpos : is_positive_response t = true)
    (hneg : is_negative_response t = true) :
    (handle_name_collection t r.toP cf true).map Output.new_state = .ok "collect_company"
    ∧ (handle_company_collection t r.toP cf true).map Output.new_state = .ok "collect_email"
    ∧ (handle_email_collection t r.toP cf true).map Output.new_state = .ok "collect_phone"
    ∧ (handle_phone_collection t r.toP cf true).map Output.new_state = .ok "collect_country"
    ∧ (handle_country_collection t r.toP cf true).map Output.new_state = .ok "final_confirmation"
    ∧ (handle_final_confirmation sinkOk t r.toP cf true).map Output.new_state = .ok "finished" := by
  refine ⟨?_, ?_, ?_, ?_, ?_, ?_⟩ <;>
    simp only [handle_name_collection, handle_company_collection,
      handle_email_collection, handle_phone_collection, handle_country_collection,
      handle_final_confirmation, hpos, if_true, Record.toP, getE_some,
      exceptBind_ok, exceptPure, exceptMap_ok, save_visitor_data]

/-- C5 witness: `"not correct"` contains the affirmative entry `"correct"`
and the negative entries `"not"`/`"not correct"`, and every confirmation
handler advances. -/
theorem c5_affirmative_wins_tie_witness :
    is_positive_response "not correct" = true
    ∧ is_negative_response "not correct" = true
    ∧ ((handle_name_collection "not correct"
          (Record.mk "Alice" "Acme" "a@b.com" "12345678" "India").toP "" true).map
        Output.new_state = .ok "collect_company")
    ∧ ((handle_final_confirmation true "not correct"
          (Record.mk "Alice" "Acme" "a@b.com" "12345678" "India").toP "" true).map
        Output.new_state = .ok "finished") := by
  have h := c5_affirmative_wins_tie "not correct"
    (Record.mk "Alice" "Acme" "a@b.com" "12345678" "India") "" true
    (by decide) (by decide)
  exact ⟨by decide, by decide, h.1, h.2.2.2.2.2⟩

/-- C4: the turn operation is total and well-formed: for every input
string, state name (unknown names fall back to the greeting handler),
record (keys may be missing) and confirmation flag, the route returns a
turn output with a non-empty `bot_response` and a `new_state` that is a
known state or the echoed incoming state; the typed `Output` always
carries `bot_response`, `new_state`, `updated_data` and
`awaiting_confirmation`. -/
theorem c4_turn_total_well_formed (choice : Nat) (sinkOk : Bool)
    (user_input state : String) (d : PRecord) (cf : String) (aw : Bool) :
    wellFormedOutput state
        (process_conversation_route choice sinkOk user_input state d cf aw)
    ∧ (state ∉ knownStates →
        process_conversation choice sinkOk user_input state d cf aw
          = handle_greeting choice user_input d cf aw) := by
  constructor
  · by_cases h1 : state = "greeting"
    · subst h1
      exact wf_routeCatch (wf_greeting choice user_input d cf aw)
    · by_cases h2 : state = "collect_name"
      · subst h2
        exact wf_routeCatch (wf_name user_input d cf aw)
      · by_cases h3 : state = "collect_company"
        · subst h3
          exact wf_routeCatch (wf_company user_input d cf aw)
        · by_cases h4 : state = "collect_email"
          · subst h4
            exact wf_routeCatch (wf_email user_input d cf aw)
          · by_cases h5 : state = "collect_phone"
            · subst h5
              exact wf_routeCatch (wf_phone user_input d cf aw)
            · by_cases h6 : state = "collect_country"
              · subst h6
                exact wf_routeCatch (wf_country user_input d cf aw)
              · by_cases h7 : state = "final_confirmation"
                · subst h7
                  exact wf_routeCatch (wf_fc sinkOk user_input d cf aw)
                · have hpc : process_conversation choice sinkOk user_input state d cf aw
                      = handle_greeting choice user_input d cf aw := by
                    unfold process_conversation
                    rw [if_neg h1, if_neg h2, if_neg h3, if_neg h4, if_neg h5,
                      if_neg h6, if_neg h7]
                  show wellFormedOutput state (routeCatch state d cf
                    (process_conversation choice sinkOk user_input state d cf aw))
                  rw [hpc]
                  exact wf_routeCatch (wf_greeting choice user_input d cf aw)
  · intro hmem
    have h1 : state ≠ "greeting" := fun h => hmem (h ▸ ks_greeting)
    have h2 : state ≠ "collect_name" := fun h => hmem (h ▸ ks_name)
    have h3 : state ≠ "collect_company" := fun h => hmem (h ▸ ks_company)
    have h4 : state ≠ "collect_email" := fun h => hmem (h ▸ ks_email)
    have h5 : state ≠ "collect_phone" := fun h => hmem (h ▸ ks_phone)
    have h6 : state ≠ "collect_country" := fun h => hmem (h ▸ ks_country)
    have h7 : state ≠ "final_confirmation" := fun h => hmem (h ▸ ks_fc)
    unfold process_conversation
    rw [if_neg h1, if_neg h2, if_neg h3, if_neg h4, if_neg h5, if_neg h6, if_neg h7]

/-- C4 witness: the totality theorem applied at an unknown state name and
a record with every key missing. -/
theorem c4_turn_total_well_formed_witness :
    wellFormedOutput "bogus_state"
        (process_conversation_route 0 true "" "bogus_state"
          (PRecord.mk none none none none none) "" false)
    ∧ process_conversation 0 true "" "bogus_state"
        (PRecord.mk none none none none none) "" false
      = handle_greeting 0 "" (PRecord.mk none none none none none) "" false :=
  ⟨(c4_turn_total_well_formed 0 true "" "bogus_state"
      (PRecord.mk none none none none none) "" false).1,
   (c4_turn_total_well_formed 0 true "" "bogus_state"
      (PRecord.mk none none none none none) "" false).2 (by decide)⟩

lemma phone_chars_of_all (text : String) :
    (phone_chars_of text).all (fun c => c.isDigit || c = '+') = true := by
  unfold phone_chars_of
  rw [List.all_eq_true]
  intro x hx
  exact (List.mem_filter.mp hx).2

/-- C7 counterexample: `extract_phone` can return a value that fails
`validate_phone`: the input `"12 plus 3456789"` yields `"12+3456789"`,
which contains an interior `+` and is rejected by the standalone
validation. -/
theorem c7_counterexample :
    extract_phone "12 plus 3456789" = some "12+3456789"
    ∧ validate_phone "12+3456789" = false :=
  ⟨by decide, by decide⟩

/-- C7 (amended): every value returned by `extract_phone` consists only of
digits and `+` signs, and its character count excluding a leading `+` is
between 8 and 15; it need not be digits-only after a leading `+`, because
interior `+` signs survive the `[^\d\+]` filter. -/
theorem c7_extract_phone_shape (text v : String)
    (h : extract_phone text = some v) :
    v.data.all (fun c => c.isDigit || c = '+') = true
    ∧ ((v.data.head? = some '+' ∧ 8 ≤ v.data.length - 1 ∧ v.data.length - 1 ≤ 15)
       ∨ (v.data.head? ≠ some '+' ∧ 8 ≤ v.data.length ∧ v.data.length ≤ 15)) := by
  unfold extract_phone at h
  split at h
  · exact Option.noConfusion h
  · split at h
    next rest heq =>
      split at h
      next hcond =>
        cases h
        simp only [Bool.and_eq_true, decide_eq_true_eq] at hcond
        constructor
        · have h2 := phone_chars_of_all text
          rw [heq] at h2
          exact h2
        · exact Or.inl ⟨rfl, hcond.1, hcond.2⟩
      next => exact Option.noConfusion h
    next _ _ hnomatch =>
      generalize hl : phone_chars_of text = L at h
      split at h
      next hcond =>
        cases h
        simp only [Bool.and_eq_true, decide_eq_true_eq] at hcond
        constructor
        · have h2 := phone_chars_of_all text
          rw [hl] at h2
          exact h2
        · refine Or.inr ⟨?_, hcond.1, hcond.2⟩
          intro hhead
          cases L with
          | nil => exact Option.noConfusion hhead
          | cons c t =>
            have hc : c = '+' := by
              have h3 := Option.some.inj hhead
              simpa using h3
            exact hnomatch t (by rw [hl, hc])
      next => exact Option.noConfusion h

/-- C7 (amended) witness: the shape property at the concrete extraction
`extract_phone "123456789" = some "123456789"`. -/
theorem c7_extract_phone_shape_witness :
    ("123456789" : String).data.all (fun c => c.isDigit || c = '+') = true
    ∧ ((("123456789" : String).data.head? = some '+'
          ∧ 8 ≤ ("123456789" : String).data.length - 1
          ∧ ("123456789" : String).data.length - 1 ≤ 15)
       ∨ (("123456789" : String).data.head? ≠ some '+'
          ∧ 8 ≤ ("123456789" : String).data.length
          ∧ ("123456789" : String).data.length ≤ 15)) :=
  c7_extract_phone_shape "123456789" "123456789" (by decide)

/-- C9 counterexample: at `collect_name`, answering `"no"` to the
confirmation clears the name, but answering `"no"` again on the resulting
turn (which is an extraction turn, since the negative answer reset
`awaiting_confirmation`) stores `"No"` as the name instead of leaving the
field cleared. -/
theorem c9_counterexample :
    (let o1 := process_conversation_route 0 true "no" "collect_name"
        (Record.mk "Alice" "Acme" "a@b.com" "12345678" "India").toP "name" true
     let o2 := process_conversation_route 0 true "no" o1.new_state o1.updated_data
        o1.current_field o1.awaiting_confirmation
     o1.updated_data.name = some "" ∧ o1.awaiting_confirmation = false
       ∧ o2.new_state = "collect_name" ∧ o2.updated_data.name = some "No") := by
  decide

/-- C9 (amended): answering `"no"` to a pending confirmation clears the
current field, stays in the same collecting state and leaves the other
fields unchanged; answering `"no"` again on the resulting turn again stays
in the same state and leaves the other fields unchanged, but — because the
first negative answer reset `awaiting_confirmation` — the second `"no"` is
fed to the extractor: for email and phone it fails and the field stays
cleared, while for name, company and country it is stored as the candidate
value `"No"` awaiting confirmation. -/
theorem c9_repeated_negative (choice : Nat) (sinkOk : Bool) (d : PRecord)
    (cf : String) :
    (let o1 := process_conversation_route choice sinkOk "no" "collect_name" d cf true
     let o2 := process_conversation_route choice sinkOk "no" o1.new_state
        o1.updated_data o1.current_field o1.awaiting_confirmation
     o1.new_state = "collect_name" ∧ o1.updated_data = { d with name := some "" }
       ∧ o1.awaiting_confirmation = false
       ∧ o2.new_state = "collect_name"
       ∧ o2.updated_data = { d with name := some "No" }
       ∧ o2.awaiting_confirmation = true)
    ∧ (let o1 := process_conversation_route choice sinkOk "no" "collect_company" d cf true
       let o2 := process_conversation_route choice sinkOk "no" o1.new_state
          o1.updated_data o1.current_field o1.awaiting_confirmation
       o1.new_state = "collect_company" ∧ o1.updated_data = { d with company := some "" }
         ∧ o1.awaiting_confirmation = false
         ∧ o2.new_state = "collect_company"
         ∧ o2.updated_data = { d with company := some "No" }
         ∧ o2.awaiting_confirmation = true)
    ∧ (let o1 := process_conversation_route choice sinkOk "no" "collect_email" d cf true
       let o2 := process_conversation_route choice sinkOk "no" o1.new_state
          o1.updated_data o1.current_field o1.awaiting_confirmation
       o1.new_state = "collect_email" ∧ o1.updated_data = { d with email := some "" }
         ∧ o1.awaiting_confirmation = false
         ∧ o2.new_state = "collect_email"
         ∧ o2.updated_data = { d with email := some "" }
         ∧ o2.awaiting_confirmation = false)
    ∧ (let o1 := process_conversation_route choice sinkOk "no" "collect_phone" d cf true
       let o2 := process_conversation_route choice sinkOk "no" o1.new_state
          o1.updated_data o1.current_field o1.awaiting_confirmation
       o1.new_state = "collect_phone" ∧ o1.updated_data = { d with phone := some "" }
         ∧ o1.awaiting_confirmation = false
         ∧ o2.new_state = "collect_phone"
         ∧ o2.updated_data = { d with phone := some "" }
         ∧ o2.awaiting_confirmation = false)
    ∧ (let o1 := process_conversation_route choice sinkOk "no" "collect_country" d cf true
       let o2 := process_conversation_route choice sinkOk "no" o1.new_state
          o1.updated_data o1.current_field o1.awaiting_confirmation
       o1.new_state = "collect_country" ∧ o1.updated_data = { d with country := some "" }
         ∧ o1.awaiting_confirmation = false
         ∧ o2.new_state = "collect_country"
         ∧ o2.updated_data = { d with country := some "No" }
         ∧ o2.awaiting_confirmation = true) :=
  ⟨⟨rfl, rfl, rfl, rfl, rfl, rfl⟩, ⟨rfl, rfl, rfl, rfl, rfl, rfl⟩,
   ⟨rfl, rfl, rfl, rfl, rfl, rfl⟩, ⟨rfl, rfl, rfl, rfl, rfl, rfl⟩,
   ⟨rfl, rfl, rfl, rfl, rfl, rfl⟩⟩

/-- C2 counterexample: the manual-input entry point accepts any field at
any time, so a single `/manual_input` call with `field="country"`,
`value="France"` from the initial all-empty session reaches
`final_confirmation` with the name (and the other three fields) still
empty — the invariant as claimed fails. -/
theorem c2_counterexample :
    ∃ s : Sess, ReachableAny s ∧ s.state = "final_confirmation"
      ∧ s.data.name = some "" :=
  ⟨manualNext "country" "France" Sess.start,
   ReachableAny.manual ReachableAny.start "country" "France",
   by decide, by decide⟩

/-- C2 (amended): starting from the greeting state with all five record
fields empty, along every sequence of conversation turns and of
manual-input turns invoked for the field the previous turn offered
(`show_manual_input`/`manual_field`), whenever the session state is
`final_confirmation` all five record fields are present and non-empty.
(Unrestricted manual-input calls break the invariant, see the
counterexample.) -/
theorem c2_final_confirmation_all_filled {s : Sess} (h : ReachableOffered s)
    (hfc : s.state = "final_confirmation") : allFilled s.data = true := by
  have hi := reachableOffered_inv h
  obtain ⟨_, hpre, _, _⟩ := hi
  rw [hfc] at hpre
  exact hpre

/-- C2 (amended) witness: a full eleven-turn conversation (greeting mood
answer, five extraction turns, five confirmations) reaches
`final_confirmation` with all five fields non-empty. -/
theorem c2_final_confirmation_all_filled_witness :
    allFilled (convNext 0 true "yes" (convNext 0 true "India" (convNext 0 true "yes"
      (convNext 0 true "12345678" (convNext 0 true "yes" (convNext 0 true "a@bc.de"
        (convNext 0 true "yes" (convNext 0 true "Acme" (convNext 0 true "yes"
          (convNext 0 true "Jo" (convNext 0 true "ok" Sess.start))))))))))).data
      = true :=
  c2_final_confirmation_all_filled
    (ReachableOffered.conv (ReachableOffered.conv (ReachableOffered.conv
      (ReachableOffered.conv (ReachableOffered.conv (ReachableOffered.conv
        (ReachableOffered.conv (ReachableOffered.conv (ReachableOffered.conv
          (ReachableOffered.conv (ReachableOffered.conv ReachableOffered.start
            0 true "ok") 0 true "Jo") 0 true "yes") 0 true "Acme") 0 true "yes")
              0 true "a@bc.de") 0 true "yes") 0 true "12345678") 0 true "yes")
                0 true "India") 0 true "yes")
    (by decide)
